import Mathlib

set_option maxRecDepth 4000

/-!
Verification of the HealBee turn-orchestration core (`src/ui.py`).

The mutable Streamlit session (`st.session_state`) is embedded as an explicit
`SessionState` record, and every orchestrator function of `ui.py` becomes a
Lean function on that record.  External collaborators (NLU engine, response
generator, translation/transcription utilities, persistence backend) live in
an `Env` record of fallible functions (`Except String _`); a raised Python
exception is a `.error` result.  An uncaught exception escaping a handler is
modelled by `Outcome.exn`, which carries the session state at the point the
exception was raised (Streamlit keeps the mutated session state when a script
run dies).
-/

namespace HealBee

/-- One entry of `st.session_state.conversation`: a dict with keys `role`,
`content` and, for user messages with a truthy language code, `lang`. -/
structure Message where
  role : String
  content : String
  lang : Option String
deriving DecidableEq, Repr

/-- Modelled from the spec: intent classes of the NLU engine
(`src/nlu_processor.py` is not under `src/`).  Only the comparison with
`HealthIntent.SYMPTOM_QUERY` matters to the orchestrator, so all other
intents are collapsed into `OTHER`. -/
inductive HealthIntent where
  | SYMPTOM_QUERY
  | OTHER
deriving DecidableEq, Repr

/-- Modelled from the spec: one NLU entity, `{text, entity_type}`. -/
structure Entity where
  text : String
  entity_type : String
deriving DecidableEq, Repr

/-- Modelled from the spec: the NLU engine result
`{intent, is_emergency, entities}`. -/
structure NLUResult where
  intent : HealthIntent
  is_emergency : Bool
  entities : List Entity
deriving DecidableEq, Repr

/-- A pending follow-up question dict `{question, symptom_name}` as returned
by the symptom checker's `get_next_question`. -/
structure Question where
  question : String
  symptom_name : String
deriving DecidableEq, Repr

/-- One entry of `st.session_state.follow_up_answers`. -/
structure FollowUpAnswer where
  symptom_name : String
  question : String
  answer : String
deriving DecidableEq, Repr

/-- Modelled from the spec: the external symptom-checker instance
(`src/symptom_checker.py` is not under `src/`).  Per spec section 6 it
enumerates a finite sequence of follow-up questions; `questions` is the
remaining (not yet returned) part of that sequence, and
`collected_symptom_details` is the key list of its collected-details dict. -/
structure Checker where
  questions : List Question
  collected_symptom_details : List String
deriving DecidableEq, Repr

/-- Modelled from the spec: `get_next_question() -> {question, symptom_name} | none`,
popping the checker's own finite question supply. -/
def Checker.get_next_question (c : Checker) : Option Question × Checker :=
  match c.questions with
  | [] => (none, c)
  | q :: rest => (some q, { c with questions := rest })

/-- Modelled from the spec: `record_answer(symptom_name, question, answer)`
records the answer into the checker's collected-details dict (keyed by
symptom name, so a repeated key does not add a second entry). -/
def Checker.record_answer (c : Checker) (symptom_name _question _answer : String) : Checker :=
  if symptom_name ∈ c.collected_symptom_details then c
  else { c with collected_symptom_details := c.collected_symptom_details ++ [symptom_name] }

/-- Value of the `recommended_next_steps` key of an assessment:
`ui.py` branches on `isinstance(next_steps, list)` / `isinstance(next_steps, str)`
with a final catch-all else branch. -/
inductive NextSteps where
  | listVal : List String → NextSteps
  | strVal : String → NextSteps
  | otherVal : NextSteps
deriving DecidableEq, Repr

/-- Modelled from the spec: the dict returned by the checker's
`generate_preliminary_assessment()`.  `none` models a missing key
(`ui.py` reads every key with `.get` and a default). -/
structure Assessment where
  assessment_summary : Option String
  suggested_severity : Option String
  recommended_next_steps : NextSteps
  potential_warnings : Option (List String)
  relevant_kb_triage_points : Option (List String)
  disclaimer : Option String
deriving DecidableEq, Repr

/-- Modelled from the spec: result of `transcribe_audio`. -/
structure STTResult where
  transcription : String
  language_detected : String
deriving DecidableEq, Repr

/-- One chat record of `st.session_state.chat_list`. -/
structure Chat where
  id : String
  title : String
deriving DecidableEq, Repr

/-- The authenticated Supabase session (`st.session_state.supabase_session`);
only `user_id` is read by the orchestrator. -/
structure SupabaseSession where
  user_id : String
deriving DecidableEq, Repr

/-- The per-session mutable state: the `st.session_state` fields read or
written by the turn-orchestration core of `ui.py`. -/
structure SessionState where
  conversation : List Message
  symptom_checker_active : Bool
  symptom_checker_instance : Option Checker
  pending_symptom_question_data : Option Question
  voice_input_stage : Option String
  captured_audio_data : Option (List Nat)
  cleaned_audio_data : Option (List Int)
  captured_audio_sample_rate : Nat
  extracted_symptoms : List String
  follow_up_answers : List FollowUpAnswer
  last_advice_given : String
  text_query_input_area : String
  current_language_code : String
  current_language_display : String
  user_profile : List (String × String)
  persistent_memory : List (String × String)
  supabase_session : Option SupabaseSession
  current_chat_id : Option String
  chat_list : List Chat
deriving DecidableEq, Repr

/-- Result of running a handler: either it finished normally, or a Python
exception escaped it.  Both constructors carry the session state, because
`st.session_state` mutations performed before the raise persist. -/
inductive Outcome (σ : Type) where
  | ok : σ → Outcome σ
  | exn : String → σ → Outcome σ
deriving DecidableEq, Repr

/-- The session state carried by an outcome (Streamlit keeps it either way). -/
def Outcome.state {σ : Type} : Outcome σ → σ
  | .ok s => s
  | .exn _ s => s

/-- The immutable snapshot dict handed to `generate_response` as
`session_context` in `process_and_display_response`. -/
structure SessionContext where
  extracted_symptoms : List String
  follow_up_answers : List FollowUpAnswer
  last_advice_given : String
  user_profile : Option (List (String × String))
  user_memory : Option (List (String × String))
  past_messages : List Message
deriving DecidableEq, Repr

/-- The external collaborators of the orchestrator (spec section 6), plus the
configuration flags read by `ui.py`.  Each fallible call returns
`Except String _`; `.error` models a raised exception. -/
structure Env where
  SARVAM_API_KEY : String
  process_transcription : String → String → Except String NLUResult
  translate_text : String → String → Except String String
  translate_text_to_english : String → Except String String
  generate_response : String → NLUResult → SessionContext → Except String String
  mk_symptom_checker : NLUResult → Except String Checker
  generate_preliminary_assessment : Checker → Except String Assessment
  json_dumps : Assessment → Except String String
  split_sentences : String → List String
  transcribe_audio : List Int → Nat → String → Except String STTResult
  clean_audio : List Nat → Except String (List Int × Nat)
  is_supabase_configured : Bool
  chat_create : String → String → Except String (Option String)
  chats_list : String → Except String (List Chat)
  messages_list : String → Except String (List Message)
  message_insert : String → String → String → Except String Bool
  user_memory_upsert : String → String → String → Except String Bool
  user_memory_get_all : String → Except String (List (String × String))
  user_profile_get : String → Except String (Option (List (String × String)))
  get_recent_messages_from_other_chats : String → String → Nat → Except String (List Message)

/-- Python `code.split('-')[0]`: the prefix before the first dash. -/
def langPrefix (code : String) : String :=
  String.mk (code.toList.takeWhile (fun c => c ≠ '-'))

/-- Dict assignment `m[k] = v` on an insertion-ordered string dict. -/
def updAssoc (m : List (String × String)) (k v : String) : List (String × String) :=
  if (m.lookup k).isSome then m.map (fun p => if p.1 = k then (k, v) else p)
  else m ++ [(k, v)]

/-- Python `str.lstrip('- ')`: drop leading dashes and spaces. -/
def lstripDashSpace (t : String) : String :=
  String.mk (t.toList.dropWhile (fun c => c = '-' ∨ c = ' '))

/-- Python `str.strip()`: drop leading and trailing whitespace.  Defined by
structural recursion over the character list so that concrete runs reduce
inside the kernel. -/
def pyStrip (t : String) : String :=
  String.mk
    (((t.toList.dropWhile Char.isWhitespace).reverse.dropWhile Char.isWhitespace).reverse)

/-- Python slicing `t[:n]`, structurally recursive. -/
def pyTake (t : String) (n : Nat) : String :=
  String.mk (t.toList.take n)

/-- Python `sep.join(parts)`, structurally recursive. -/
def pyJoin (sep : String) : List String → String
  | [] => ""
  | [x] => x
  | x :: xs => x ++ sep ++ pyJoin sep xs

/-- The membership-checked extension of `extracted_symptoms` performed by the
loops at `ui.py` lines 987-989 and 1106-1108:
`if s and s not in extracted_symptoms: extracted_symptoms.append(s)`. -/
def appendNewSymptoms (acc : List String) (names : List String) : List String :=
  names.foldl (fun a x => if x ≠ "" ∧ x ∉ a then a ++ [x] else a) acc

/-- `add_message_to_conversation` (`ui.py` 617-621): appends a message dict;
the `lang` key is set only for user messages with a truthy language code. -/
def add_message_to_conversation (s : SessionState) (role content : String)
    (lang_code : Option String) : SessionState :=
  let lang : Option String :=
    match lang_code with
    | some l => if l ≠ "" ∧ role = "user" then some l else none
    | none => none
  { s with conversation := s.conversation ++ [⟨role, content, lang⟩] }

/-- `_persist_message_to_db` (`ui.py` 624-640): best-effort mirror of one
message to the backend; a no-op when unconfigured or unauthenticated; any
backend exception is swallowed (`except Exception: pass`), leaving the state
as it was at the point of the raise. -/
def persist_message_to_db (env : Env) (s : SessionState) (role content : String) :
    SessionState :=
  if env.is_supabase_configured = false then s
  else
    match s.supabase_session with
    | none => s
    | some sess =>
      let uid := sess.user_id
      match s.current_chat_id with
      | some cid =>
        if cid ≠ "" then
          match env.message_insert cid role content with
          | _ => s
        else s
      | none =>
        let title :=
          if content.length > 50 then pyTake content 50 ++ "…"
          else if content = "" then "Chat" else content
        match env.chat_create uid title with
        | .error _ => s
        | .ok none => s
        | .ok (some cid) =>
          if cid ≠ "" then
            let s1 := { s with current_chat_id := some cid }
            match env.chats_list uid with
            | .error _ => s1
            | .ok cl =>
              let s2 := { s1 with chat_list := cl }
              match env.message_insert cid role content with
              | _ => s2
          else s

/-- The `last_advice` half of `_save_health_context_to_memory`
(`ui.py` 655-657). -/
def saveAdviceStep (env : Env) (uid advice : String) (s : SessionState) : SessionState :=
  if advice ≠ "" then
    match env.user_memory_upsert uid "last_advice" advice with
    | .error _ => s
    | .ok _ => { s with persistent_memory := updAssoc s.persistent_memory "last_advice" advice }
  else s

/-- `_save_health_context_to_memory` (`ui.py` 643-659): mirrors
`extracted_symptoms` and `last_advice_given` into the user-memory backend and
the session cache; a no-op when unconfigured or unauthenticated; any backend
exception is swallowed, skipping the remaining statements. -/
def save_health_context_to_memory (env : Env) (s : SessionState) : SessionState :=
  if env.is_supabase_configured = false then s
  else
    match s.supabase_session with
    | none => s
    | some sess =>
      let uid := sess.user_id
      let symptoms := s.extracted_symptoms
      let advice := pyTake s.last_advice_given 800
      if symptoms ≠ [] then
        let val := pyJoin ", " (symptoms.take 20)
        match env.user_memory_upsert uid "last_symptoms" val with
        | .error _ => s
        | .ok _ =>
          saveAdviceStep env uid advice
            { s with persistent_memory := updAssoc s.persistent_memory "last_symptoms" val }
      else saveAdviceStep env uid advice s

/-- Rendering of the `recommended_next_steps` string branch
(`ui.py` 1117-1126): split into sentences, re-join as a bullet list, strip a
leading bullet, translate once. -/
def renderNextStepsStr (env : Env) (user_lang next_steps : String) :
    Except String String := do
  let sentences := env.split_sentences (pyStrip next_steps)
  let temp_steps := lstripDashSpace (pyStrip (pyJoin "\n- " sentences))
  let t ← env.translate_text temp_steps user_lang
  pure (t ++ "\n")

/-- The structured-rendering block of `generate_and_display_assessment`
(`ui.py` 1110-1137, the body of its `try`): builds the localized assessment
markdown; any raised translation error aborts the build. -/
def renderAssessment (env : Env) (user_lang : String) (assessment : Assessment) :
    Except String String := do
  let title ← env.translate_text "Preliminary Health Assessment" user_lang
  let acc := "<h4> " ++ title ++ ":</h4>\n\n"
  let summaryLbl ← env.translate_text "Summary" user_lang
  let summaryVal ← env.translate_text (assessment.assessment_summary.getD "N/A") user_lang
  let acc := acc ++ "**" ++ summaryLbl ++ ":** " ++ summaryVal ++ "\n\n"
  let sevLbl ← env.translate_text "Suggested Severity" user_lang
  let sevVal ← env.translate_text (assessment.suggested_severity.getD "N/A") user_lang
  let acc := acc ++ "**" ++ sevLbl ++ ":** " ++ sevVal ++ "\n\n"
  let stepsLbl ← env.translate_text "Recommended Next Steps" user_lang
  let acc := acc ++ "**" ++ stepsLbl ++ ":**\n"
  let stepsPart ←
    match assessment.recommended_next_steps with
    | .listVal steps =>
      steps.foldlM (fun a step => do
        let t ← env.translate_text step user_lang
        pure (a ++ "- " ++ t ++ "\n")) ""
    | .strVal str => renderNextStepsStr env user_lang str
    | .otherVal => do
      let t ← env.translate_text "N/A" user_lang
      pure ("- " ++ t ++ "\n")
  let acc := acc ++ stepsPart
  let acc ←
    match assessment.potential_warnings with
    | some (w :: ws) => do
      let lbl ← env.translate_text "Potential Warnings" user_lang
      (w :: ws).foldlM (fun a warning => do
          let t ← env.translate_text warning user_lang
          pure (a ++ "- " ++ t ++ "\n"))
        (acc ++ "\n**" ++ lbl ++ ":**\n")
    | _ => pure acc
  let acc ←
    match assessment.relevant_kb_triage_points with
    | some (p :: ps) => do
      let lbl ← env.translate_text "Relevant Triage Points from Knowledge Base" user_lang
      (p :: ps).foldlM (fun a point => do
          let t ← env.translate_text point user_lang
          pure (a ++ "- " ++ t ++ "\n"))
        (acc ++ "\n**" ++ lbl ++ ":**\n")
    | _ => pure acc
  let discLbl ← env.translate_text "Disclaimer" user_lang
  let discVal ← env.translate_text
    (assessment.disclaimer.getD "Always consult a doctor for medical advice.") user_lang
  pure (acc ++ "\n\n**" ++ discLbl ++ ":** " ++ discVal)

/-- `generate_and_display_assessment` (`ui.py` 1098-1157).  The assessment is
requested from the checker (an exception there escapes: it is raised before
the function's inner `try`), collected symptom names are merged into
`extracted_symptoms` with a membership check, and the rendered assessment is
appended; if rendering raises, the raw JSON payload is appended instead, and
if serialization also raises, a diagnostic carrying the serialization error
is appended.  The symptom session is then closed and the voice stage reset. -/
def generate_and_display_assessment (env : Env) (s : SessionState) :
    Outcome SessionState :=
  let user_lang := s.current_language_code
  match s.symptom_checker_instance with
  | none => .ok { s with voice_input_stage := none }
  | some sc =>
    match env.generate_preliminary_assessment sc with
    | .error e => .exn e s
    | .ok assessment =>
      let s1 := { s with extracted_symptoms :=
        appendNewSymptoms s.extracted_symptoms sc.collected_symptom_details }
      let s2 :=
        match renderAssessment env user_lang assessment with
        | .ok assessment_str =>
          let sA := add_message_to_conversation s1 "assistant" assessment_str none
          let sB := persist_message_to_db env sA "assistant" assessment_str
          let summary := assessment.assessment_summary.getD ""
          let sC := save_health_context_to_memory env sB
          { sC with last_advice_given :=
              pyTake (if summary = "" then pyTake assessment_str 800 else summary) 800 }
        | .error _ =>
          match env.json_dumps assessment with
          | .ok raw_assessment_json =>
            let sA := add_message_to_conversation s1 "assistant"
              ("Could not format assessment. Raw data:\n```json\n" ++
                raw_assessment_json ++ "\n```") none
            persist_message_to_db env sA "assistant" (pyTake raw_assessment_json 2000)
          | .error json_e =>
            let sA := add_message_to_conversation s1 "assistant"
              ("Could not format or serialize assessment: " ++ json_e) none
            persist_message_to_db env sA "assistant" (pyTake json_e 500)
      .ok { s2 with symptom_checker_active := false,
                    symptom_checker_instance := none,
                    pending_symptom_question_data := none,
                    voice_input_stage := none }

/-- The `past_messages` entry of the session context (`ui.py` 1012-1019):
bounded recent messages from other chats, or `[]` when the backend is
unconfigured, unauthenticated, has no current chat, or raises. -/
def past_messages_for_context (env : Env) (s : SessionState) : List Message :=
  match s.supabase_session, s.current_chat_id with
  | some sess, some cid =>
    if env.is_supabase_configured ∧ cid ≠ "" then
      match env.get_recent_messages_from_other_chats sess.user_id cid 8 with
      | .ok ms => ms
      | .error _ => []
    else []
  | _, _ => []

/-- The body of the `try` of `process_and_display_response`
(`ui.py` 979-1027): NLU, symptom-session creation or direct response
generation.  An `.exn` outcome is an exception propagating out of this block
(always caught by `process_and_display_response` itself). -/
def processBody (env : Env) (s : SessionState) (user_query_text lang_code : String) :
    Outcome SessionState :=
  let user_lang := s.current_language_code
  match env.process_transcription user_query_text lang_code with
  | .error e => .exn e s
  | .ok nlu_output =>
    let symptom_entities :=
      (nlu_output.entities.filter (fun e => e.entity_type = "symptom")).map Entity.text
    let s1 := { s with extracted_symptoms :=
      appendNewSymptoms s.extracted_symptoms symptom_entities }
    if nlu_output.intent = HealthIntent.SYMPTOM_QUERY ∧ nlu_output.is_emergency = false then
      let s2 := { s1 with symptom_checker_active := true }
      -- `SymptomChecker(...)` and `prepare_follow_up_questions()` are combined
      -- into one fallible construction: any failure in either is caught by
      -- the enclosing handler before the distinction can be observed.
      match env.mk_symptom_checker nlu_output with
      | .error e => .exn e s2
      | .ok checker0 =>
        let (q, checker1) := checker0.get_next_question
        let s3 := { s2 with symptom_checker_instance := some checker1,
                            pending_symptom_question_data := q }
        match q with
        | some qd =>
          match env.translate_text qd.question user_lang with
          | .error e => .exn e s3
          | .ok question_to_ask_translated =>
            match env.translate_text qd.symptom_name user_lang with
            | .error e => .exn e s3
            | .ok symptom_context_translated =>
              let msg := question_to_ask_translated ++ ": " ++ symptom_context_translated
              let s4 := add_message_to_conversation s3 "assistant" msg none
              .ok (persist_message_to_db env s4 "assistant" msg)
        | none => generate_and_display_assessment env s3
    else
      let session_context : SessionContext :=
        { extracted_symptoms := s1.extracted_symptoms
          follow_up_answers := s1.follow_up_answers
          last_advice_given := pyTake s1.last_advice_given 800
          user_profile := if s1.user_profile = [] then none else some s1.user_profile
          user_memory := if s1.persistent_memory = [] then none else some s1.persistent_memory
          past_messages := past_messages_for_context env s1 }
      match env.generate_response user_query_text nlu_output session_context with
      | .error e => .exn e s1
      | .ok bot_response =>
        match env.translate_text bot_response user_lang with
        | .error e => .exn e s1
        | .ok translated_bot_response =>
          let sA := add_message_to_conversation s1 "assistant" translated_bot_response none
          let sB := persist_message_to_db env sA "assistant" translated_bot_response
          let sC := { sB with last_advice_given := pyTake translated_bot_response 800,
                              symptom_checker_active := false }
          .ok (save_health_context_to_memory env sC)

/-- `process_and_display_response` (`ui.py` 964-1035): guards the missing API
key (the cached collaborator getters return `None` only for an empty key, so
the second guard at lines 974-977 is unreachable once the first passes),
runs the routing body, catches any exception from it by appending a single
system diagnostic and clearing the symptom-session transient fields, and
always resets the voice stage (`finally`). -/
def process_and_display_response (env : Env) (s : SessionState)
    (user_query_text lang_code : String) : SessionState :=
  if env.SARVAM_API_KEY = "" then
    let s1 := add_message_to_conversation s "system" "Error: API Key not configured." none
    { s1 with voice_input_stage := none }
  else
    match processBody env s user_query_text lang_code with
    | .ok s1 => { s1 with voice_input_stage := none }
    | .exn _ sErr =>
      let s1 := add_message_to_conversation sErr "system"
        "Sorry, an error occurred while processing your request. Please try rephrasing or try again later."
        none
      { s1 with symptom_checker_active := false,
                symptom_checker_instance := none,
                pending_symptom_question_data := none,
                voice_input_stage := none }

/-- `handle_follow_up_answer` (`ui.py` 1037-1068).  This handler has no
`try`/`except`: an exception raised by translation or by assessment
generation escapes it as `.exn`, skipping the trailing voice-stage reset. -/
def handle_follow_up_answer (env : Env) (s : SessionState) (answer_text : String) :
    Outcome SessionState :=
  let user_lang := s.current_language_code
  match s.symptom_checker_instance, s.pending_symptom_question_data with
  | some checker, some qd =>
    let s1 := add_message_to_conversation s "user" answer_text
      (some (langPrefix s.current_language_code))
    let s2 := persist_message_to_db env s1 "user" answer_text
    let question_asked := qd.question
    let symptom_name := qd.symptom_name
    let s3 := { s2 with follow_up_answers :=
      s2.follow_up_answers ++ [(⟨symptom_name, question_asked, answer_text⟩ : FollowUpAnswer)] }
    let checker2 := checker.record_answer symptom_name question_asked answer_text
    let (q2, checker3) := checker2.get_next_question
    let s4 := { s3 with symptom_checker_instance := some checker3,
                        pending_symptom_question_data := q2 }
    match q2 with
    | some qd2 =>
      match env.translate_text qd2.question user_lang with
      | .error e => .exn e s4
      | .ok question_to_ask_translated =>
        match env.translate_text qd2.symptom_name user_lang with
        | .error e => .exn e s4
        | .ok symptom_context_translated =>
          let msg := symptom_context_translated ++ ": " ++ question_to_ask_translated
          let s5 := add_message_to_conversation s4 "assistant" msg none
          let s6 := persist_message_to_db env s5 "assistant" msg
          .ok { s6 with voice_input_stage := none }
    | none =>
      match generate_and_display_assessment env s4 with
      | .exn e s' => .exn e s'
      | .ok s' => .ok { s' with voice_input_stage := none }
  | _, _ =>
    .ok { s with symptom_checker_active := false, voice_input_stage := none }

/-- `handle_text_submission` (`ui.py` 1071-1096): the Send-button callback.
Empty (after strip) input returns immediately; a pending follow-up question
of an active symptom session delegates to the follow-up loop; otherwise the
user message is appended, stale symptom state is cleared, and the new query
is processed.  The text area is cleared on normal completion. -/
def handle_text_submission (env : Env) (s : SessionState) : Outcome SessionState :=
  let user_input := pyStrip s.text_query_input_area
  let current_lang_code := s.current_language_code
  if user_input = "" then .ok s
  else if s.symptom_checker_active = true ∧ s.pending_symptom_question_data ≠ none then
    match handle_follow_up_answer env s user_input with
    | .exn e s' => .exn e s'
    | .ok s' => .ok { s' with text_query_input_area := "" }
  else
    let s1 := add_message_to_conversation s "user" user_input
      (some (langPrefix current_lang_code))
    let s2 := persist_message_to_db env s1 "user" user_input
    let s3 :=
      if s2.symptom_checker_active = true then
        { s2 with symptom_checker_active := false,
                  symptom_checker_instance := none,
                  pending_symptom_question_data := none }
      else s2
    let s4 := process_and_display_response env s3 user_input current_lang_code
    .ok { s4 with text_query_input_area := "" }

/-- The audio decode-and-clean block (`ui.py` 1160-1174): decodes captured
bytes, cleans them, stores the cleaned samples and sample rate and arms the
`processing_stt` stage.  `sf.read` and the cleaner are not wrapped in a
`try`, so a raise escapes with the captured buffer still set. -/
def audio_clean_step (env : Env) (s : SessionState) : Outcome SessionState :=
  match s.captured_audio_data with
  | none => .ok s
  | some bytes =>
    match env.clean_audio bytes with
    | .error e => .exn e s
    | .ok (cleaned_data, cleaned_sr) =>
      .ok { s with cleaned_audio_data := some cleaned_data,
                   captured_audio_sample_rate := cleaned_sr,
                   voice_input_stage := some "processing_stt" }

/-- The `processing_stt` block (`ui.py` 1176-1206): transcribes the cleaned
audio; when the detected language differs from the session language the text
is first normalized through translation; a non-empty result is injected as a
user message and processed as a new query, an empty result yields a system
diagnostic; transcription or translation exceptions are caught as a system
diagnostic; audio buffers and the voice stage are then reset unconditionally. -/
def voice_stt_step (env : Env) (s : SessionState) : SessionState :=
  if s.voice_input_stage = some "processing_stt" then
    match s.cleaned_audio_data with
    | some cleaned =>
      let lang_for_stt := s.current_language_code
      let afterTry : SessionState :=
        match env.transcribe_audio cleaned s.captured_audio_sample_rate lang_for_stt with
        | .error e => add_message_to_conversation s "system"
            ("Sorry, an error occurred during voice transcription. Please try again. (Details: "
              ++ e ++ ")") none
        | .ok stt_result =>
          let transcribedE : Except String String :=
            if lang_for_stt ≠ stt_result.language_detected then
              if lang_for_stt = "en-IN" then
                env.translate_text_to_english stt_result.transcription
              else env.translate_text stt_result.transcription lang_for_stt
            else .ok stt_result.transcription
          match transcribedE with
          | .error e => add_message_to_conversation s "system"
              ("Sorry, an error occurred during voice transcription. Please try again. (Details: "
                ++ e ++ ")") none
          | .ok transcribed_text =>
            if pyStrip transcribed_text ≠ "" then
              let s1 := add_message_to_conversation s "user" transcribed_text
                (some (langPrefix lang_for_stt))
              let s2 := persist_message_to_db env s1 "user" transcribed_text
              process_and_display_response env s2 transcribed_text lang_for_stt
            else
              add_message_to_conversation s "system"
                "⚠️ STT failed to transcribe audio or returned empty. Please try again." none
      { afterTry with captured_audio_data := none,
                      cleaned_audio_data := none,
                      voice_input_stage := none }
    | none => { s with voice_input_stage := none }
  else s

/-- The chat-language selector map (`ui.py` 565-574).  The native-script
display labels are abbreviated to their Latin names; the language codes are
the ones that matter to the orchestrator. -/
def LANGUAGE_MAP : List (String × String) :=
  [("English", "en-IN"), ("Hindi", "hi-IN"), ("Bengali", "bn-IN"),
   ("Marathi", "mr-IN"), ("Kannada", "kn-IN"), ("Tamil", "ta-IN"),
   ("Telugu", "te-IN"), ("Malayalam", "ml-IN")]

/-- The language-change reset (`ui.py` 854-867): switching the selector
clears the conversation, the whole symptom session, the voice stage, session
memory and the profile cache.  The selectbox only offers `LANGUAGE_MAP`
keys, so an unknown label leaves the state unchanged. -/
def language_change_step (s : SessionState) (selected_lang_display : String) :
    SessionState :=
  if selected_lang_display ≠ s.current_language_display then
    match LANGUAGE_MAP.lookup selected_lang_display with
    | some code =>
      { s with current_language_display := selected_lang_display,
               current_language_code := code,
               conversation := [],
               symptom_checker_active := false,
               symptom_checker_instance := none,
               pending_symptom_question_data := none,
               voice_input_stage := none,
               extracted_symptoms := [],
               follow_up_answers := [],
               last_advice_given := "",
               user_profile := [] }
    | none => s
  else s

/-- The settings-page session clear (`ui.py` 1481-1492). -/
def clear_session_step (s : SessionState) : SessionState :=
  { s with conversation := [],
           extracted_symptoms := [],
           follow_up_answers := [],
           last_advice_given := "",
           user_profile := [],
           symptom_checker_active := false,
           symptom_checker_instance := none,
           pending_symptom_question_data := none }

/-- The "New chat" button (`ui.py` 835-838). -/
def new_chat_step (s : SessionState) : SessionState :=
  { s with current_chat_id := none, conversation := [] }

/-- Selecting a saved chat (`ui.py` 843-850): replaces the conversation with
the stored messages (role and content only); a backend exception is
swallowed. -/
def load_chat_step (env : Env) (s : SessionState) (cid : String) : SessionState :=
  match env.messages_list cid with
  | .error _ => s
  | .ok msgs =>
    { s with conversation := msgs.map (fun m => ⟨m.role, m.content, none⟩),
             current_chat_id := some cid }

/-- The per-run refresh for an authenticated session (`ui.py` 764-778):
reloads the chat list, persistent memory and profile; an exception part-way
leaves the earlier assignments in place. -/
def auth_refresh_step (env : Env) (s : SessionState) : SessionState :=
  match s.supabase_session with
  | none => s
  | some sess =>
    if env.is_supabase_configured then
      let uid := sess.user_id
      if uid ≠ "" then
        match env.chats_list uid with
        | .error _ => s
        | .ok cl =>
          let s1 := { s with chat_list := cl }
          match env.user_memory_get_all uid with
          | .error _ => s1
          | .ok mem =>
            let s2 := { s1 with persistent_memory := mem }
            match env.user_profile_get uid with
            | .error _ => s2
            | .ok loaded => { s2 with user_profile := loaded.getD [] }
      else s
    else s

/-- The voice pipeline portion of one script run (`ui.py` 1160-1206): the
decode-and-clean block followed by the `processing_stt` block. -/
def pipeline_step (env : Env) (s : SessionState) : Outcome SessionState :=
  match audio_clean_step env s with
  | .exn e s' => .exn e s'
  | .ok s1 => .ok (voice_stt_step env s1)

/-- A user-visible interaction with the chat orchestrator: each constructor
is one entry point into the session-mutating code of `ui.py`. -/
inductive Event where
  | textSubmit (text : String)
  | audioCaptured (bytes : List Nat)
  | rerunPipeline
  | languageChange (selected : String)
  | clearSession
  | newChat
  | loadChat (cid : String)
  | login (sess : SupabaseSession)
  | authRefresh

/-- One interaction step: the handler the event triggers.  `textSubmit`
first stores the typed text in the widget's session key, `audioCaptured`
stores the recorded bytes (`ui.py` 1337-1339) and then runs the pipeline. -/
def step (env : Env) (s : SessionState) (e : Event) : Outcome SessionState :=
  match e with
  | .textSubmit text => handle_text_submission env { s with text_query_input_area := text }
  | .audioCaptured bytes => pipeline_step env { s with captured_audio_data := some bytes }
  | .rerunPipeline => pipeline_step env s
  | .languageChange selected => .ok (language_change_step s selected)
  | .clearSession => .ok (clear_session_step s)
  | .newChat => .ok (new_chat_step s)
  | .loadChat cid => .ok (load_chat_step env s cid)
  | .login sess => .ok { s with supabase_session := some sess }
  | .authRefresh => .ok (auth_refresh_step env s)

/-- The session-state initialization block (`ui.py` 121-170). -/
def initState : SessionState :=
  { conversation := [],
    symptom_checker_active := false,
    symptom_checker_instance := none,
    pending_symptom_question_data := none,
    voice_input_stage := none,
    captured_audio_data := none,
    cleaned_audio_data := none,
    captured_audio_sample_rate := 48000,
    extracted_symptoms := [],
    follow_up_answers := [],
    last_advice_given := "",
    text_query_input_area := "",
    current_language_code := "en-IN",
    current_language_display := "English",
    user_profile := [],
    persistent_memory := [],
    supabase_session := none,
    current_chat_id := none,
    chat_list := [] }

/-- The reachable session states: the initial state, plus everything an
interaction step can produce — including the state left behind when an
uncaught exception aborts a script run (Streamlit keeps the session state). -/
inductive Reachable (env : Env) : SessionState → Prop where
  | init : Reachable env initState
  | next : ∀ {s : SessionState} {e : Event} {s' : SessionState},
      Reachable env s → (step env s e).state = s' → Reachable env s'

/-- Repeatedly answering the pending follow-up question: one
`handle_follow_up_answer` invocation per answer, stopping early if an
exception escapes a round. -/
def run_follow_ups (env : Env) (s : SessionState) (answers : List String) :
    Outcome SessionState :=
  match answers with
  | [] => .ok s
  | a :: rest =>
    match handle_follow_up_answer env s a with
    | .exn e s' => .exn e s'
    | .ok s' => run_follow_ups env s' rest

/-- Running a sequence of interaction steps, stopping at the state left by
an uncaught exception. -/
def runEvents (env : Env) (s : SessionState) (events : List Event) :
    Outcome SessionState :=
  match events with
  | [] => .ok s
  | e :: rest =>
    match step env s e with
    | .exn m s' => .exn m s'
    | .ok s' => runEvents env s' rest

/-- Number of user-role messages in a conversation log. -/
def userCount (conv : List Message) : Nat :=
  (conv.filter (fun m => m.role = "user")).length

/-- Number of system-role messages in a conversation log. -/
def sysCount (conv : List Message) : Nat :=
  (conv.filter (fun m => m.role = "system")).length

/-- The conversation of `s'` is that of `s` with only non-user messages
appended. -/
def ConvExt (s s' : SessionState) : Prop :=
  ∃ ms, s'.conversation = s.conversation ++ ms ∧ ∀ m ∈ ms, m.role ≠ "user"

/-- The invariant that makes the follow-up path safe: whenever a follow-up
question is pending, the checker instance it belongs to is present. -/
def PendingHasChecker (s : SessionState) : Prop :=
  s.pending_symptom_question_data ≠ none → s.symptom_checker_instance ≠ none

/-- The facts shared by every state transition of the new-query routing
path: the conversation only grows by non-user messages, `follow_up_answers`
is untouched, `extracted_symptoms` only grows (keeping earlier entries in
place) and stays duplicate-free, and a pending question keeps its checker. -/
def RouteFacts (s s' : SessionState) : Prop :=
  ConvExt s s' ∧
  s'.follow_up_answers = s.follow_up_answers ∧
  (∃ t, s'.extracted_symptoms = s.extracted_symptoms ++ t) ∧
  (s.extracted_symptoms.Nodup → s'.extracted_symptoms.Nodup) ∧
  (PendingHasChecker s → PendingHasChecker s')

/-- A concrete environment in which every collaborator call succeeds:
the NLU engine classifies exactly the text "I have a fever" as a
non-emergency symptom query with one symptom entity, the checker supplies
two follow-up questions, translation is the identity, and the persistence
backend is unconfigured. -/
def envTriv : Env :=
  { SARVAM_API_KEY := "key",
    process_transcription := fun t _ =>
      if t = "I have a fever" then
        Except.ok ⟨HealthIntent.SYMPTOM_QUERY, false, [⟨"fever", "symptom"⟩]⟩
      else Except.ok ⟨HealthIntent.OTHER, false, []⟩,
    translate_text := fun t _ => Except.ok t,
    translate_text_to_english := fun t => Except.ok t,
    generate_response := fun _ _ _ => Except.ok "drink water",
    mk_symptom_checker := fun _ =>
      Except.ok ⟨[⟨"How long?", "fever"⟩, ⟨"How high?", "fever"⟩], []⟩,
    generate_preliminary_assessment := fun _ =>
      Except.ok ⟨some "summary", some "mild", NextSteps.strVal "rest", none, none,
        some "see a doctor"⟩,
    json_dumps := fun _ => Except.ok "raw",
    split_sentences := fun t => [t],
    transcribe_audio := fun _ _ lang => Except.ok ⟨"what is flu", lang⟩,
    clean_audio := fun _ => Except.ok ([1], 16000),
    is_supabase_configured := false,
    chat_create := fun _ _ => Except.ok none,
    chats_list := fun _ => Except.ok [],
    messages_list := fun _ => Except.ok [],
    message_insert := fun _ _ _ => Except.ok true,
    user_memory_upsert := fun _ _ _ => Except.ok true,
    user_memory_get_all := fun _ => Except.ok [],
    user_profile_get := fun _ => Except.ok none,
    get_recent_messages_from_other_chats := fun _ _ _ => Except.ok [] }

/-- Like `envTriv`, but translating the second follow-up question raises. -/
def envC3 : Env :=
  { envTriv with translate_text := fun t _ =>
      if t = "How high?" then Except.error "translation failed" else Except.ok t }

/-- Like `envTriv`, but the NLU engine raises. -/
def envFail : Env :=
  { envTriv with process_transcription := fun _ _ => Except.error "nlu down" }

/-- Like `envTriv`, but transcription returns an empty string. -/
def envEmptySTT : Env :=
  { envTriv with transcribe_audio := fun _ _ lang => Except.ok ⟨"", lang⟩ }

/-- Like `envTriv`, but translation and serialization both raise, so
assessment rendering must fall back twice. -/
def envRenderFail : Env :=
  { envTriv with translate_text := fun _ _ => Except.error "boom",
                 json_dumps := fun _ => Except.error "unserializable" }

/-- The state after submitting "I have a fever" to a fresh session under
`envTriv`: an active symptom session with a pending first question. -/
def c9s1 : SessionState :=
  (step envTriv initState (.textSubmit "I have a fever")).state

/-- The state after a voice utterance arrives while the follow-up question
of `c9s1` is still pending. -/
def c9state : SessionState :=
  (step envTriv c9s1 (.audioCaptured [0])).state

/-- Same first step as `c9s1` but under `envC3`. -/
def c3s1 : SessionState :=
  (step envC3 initState (.textSubmit "I have a fever")).state

/-- The state left behind when answering the pending question under `envC3`
lets the translation exception escape the router. -/
def c3state : SessionState :=
  (step envC3 c3s1 (.textSubmit "two days")).state

/-- A session with an active symptom interview: pending first question,
one further question in the checker. -/
def sPend : SessionState :=
  { initState with symptom_checker_active := true,
                   symptom_checker_instance := some ⟨[⟨"How high?", "fever"⟩], []⟩,
                   pending_symptom_question_data := some ⟨"How long?", "fever"⟩ }

/-- The state carried by the exception escaping `handle_follow_up_answer`
on `sPend` under `envC3`. -/
def c3exnState : SessionState :=
  (handle_follow_up_answer envC3 sPend "two days").state

/-- An active session whose checker has no further question, with typed
text waiting in the input area. -/
def c1wState : SessionState :=
  { initState with symptom_checker_active := true,
                   symptom_checker_instance := some ⟨[], []⟩,
                   pending_symptom_question_data := some ⟨"Q", "fever"⟩,
                   text_query_input_area := "ans" }

/-- A session in the `processing_stt` stage with cleaned audio waiting. -/
def sStt : SessionState :=
  { initState with voice_input_stage := some "processing_stt",
                   cleaned_audio_data := some [1] }

/-- A session with a checker instance present (for assessment emission). -/
def sInst : SessionState :=
  { initState with symptom_checker_instance := some ⟨[], []⟩ }

/-- A session whose input area holds only whitespace. -/
def sWs : SessionState :=
  { initState with text_query_input_area := "   " }

@[simp] theorem Outcome.state_ok {σ : Type} (s : σ) : (Outcome.ok s).state = s := rfl

@[simp] theorem Outcome.state_exn {σ : Type} (m : String) (s : σ) :
    (Outcome.exn m s).state = s := rfl

theorem convExt_refl (s : SessionState) : ConvExt s s :=
  ⟨[], by simp, by simp⟩

theorem convExt_of_eq {s s' s'' : SessionState} (h : s''.conversation = s'.conversation)
    (hx : ConvExt s s') : ConvExt s s'' := by
  obtain ⟨ms, h1, h2⟩ := hx
  exact ⟨ms, h ▸ h1, h2⟩

theorem convExt_trans {s₁ s₂ s₃ : SessionState} (h1 : ConvExt s₁ s₂) (h2 : ConvExt s₂ s₃) :
    ConvExt s₁ s₃ := by
  obtain ⟨ms, hm, hr⟩ := h1
  obtain ⟨ns, hn, hs⟩ := h2
  refine ⟨ms ++ ns, ?_, ?_⟩
  · rw [hn, hm, List.append_assoc]
  · intro m hm'
    rcases List.mem_append.mp hm' with h | h
    · exact hr m h
    · exact hs m h

theorem userCount_append (conv ms : List Message) :
    userCount (conv ++ ms) = userCount conv + userCount ms := by
  simp [userCount, List.filter_append]

theorem userCount_of_convExt {s s' : SessionState} (h : ConvExt s s') :
    userCount s'.conversation = userCount s.conversation := by
  obtain ⟨ms, h1, h2⟩ := h
  rw [h1, userCount_append]
  have : ms.filter (fun m => m.role = "user") = [] := by
    rw [List.filter_eq_nil_iff]
    intro m hm
    simpa using h2 m hm
  simp [userCount, this]

theorem sysCount_append (conv ms : List Message) :
    sysCount (conv ++ ms) = sysCount conv + sysCount ms := by
  simp [sysCount, List.filter_append]

/-- `_persist_message_to_db` touches only `current_chat_id` and `chat_list`. -/
theorem persist_message_to_db_frame (env : Env) (s : SessionState) (role content : String) :
    ∃ cid cl, persist_message_to_db env s role content =
      { s with current_chat_id := cid, chat_list := cl } := by
  unfold persist_message_to_db
  repeat' (first | split | dsimp only)
  all_goals exact ⟨_, _, rfl⟩

/-- `saveAdviceStep` touches only `persistent_memory`. -/
theorem saveAdviceStep_frame (env : Env) (uid advice : String) (s : SessionState) :
    ∃ pm, saveAdviceStep env uid advice s = { s with persistent_memory := pm } := by
  unfold saveAdviceStep
  repeat' split
  all_goals exact ⟨_, rfl⟩

theorem saveAdviceStep_frame' (env : Env) (uid advice : String) (s : SessionState)
    (pm0 : List (String × String)) :
    ∃ pm, saveAdviceStep env uid advice { s with persistent_memory := pm0 } =
      { s with persistent_memory := pm } := by
  obtain ⟨pm, h⟩ := saveAdviceStep_frame env uid advice { s with persistent_memory := pm0 }
  exact ⟨pm, by rw [h]⟩

/-- `_save_health_context_to_memory` touches only `persistent_memory`. -/
theorem save_health_context_to_memory_frame (env : Env) (s : SessionState) :
    ∃ pm, save_health_context_to_memory env s = { s with persistent_memory := pm } := by
  unfold save_health_context_to_memory
  split
  · exact ⟨_, rfl⟩
  split
  · exact ⟨_, rfl⟩
  dsimp only
  split
  · split
    · exact ⟨_, rfl⟩
    · exact saveAdviceStep_frame' env _ _ s _
  · exact saveAdviceStep_frame env _ _ s

/-- Exhaustive characterization of `generate_and_display_assessment`: it
either skips (no checker instance), lets an assessment-generation exception
escape with the state untouched, or appends exactly one assistant message —
whatever rendering and serialization do — merges the checker's collected
symptom names, closes the symptom session and resets the voice stage. -/
theorem gada_cases (env : Env) (s : SessionState) :
    (s.symptom_checker_instance = none ∧
      generate_and_display_assessment env s = .ok { s with voice_input_stage := none }) ∨
    (∃ c e, s.symptom_checker_instance = some c ∧
      env.generate_preliminary_assessment c = Except.error e ∧
      generate_and_display_assessment env s = .exn e s) ∨
    (∃ c a m es cid cl pm la, s.symptom_checker_instance = some c ∧
      env.generate_preliminary_assessment c = Except.ok a ∧
      m.role = "assistant" ∧
      es = appendNewSymptoms s.extracted_symptoms c.collected_symptom_details ∧
      generate_and_display_assessment env s = .ok
        { s with conversation := s.conversation ++ [m],
                 extracted_symptoms := es,
                 last_advice_given := la,
                 persistent_memory := pm,
                 current_chat_id := cid,
                 chat_list := cl,
                 symptom_checker_active := false,
                 symptom_checker_instance := none,
                 pending_symptom_question_data := none,
                 voice_input_stage := none }) := by
  unfold generate_and_display_assessment
  dsimp only
  split
  · rename_i heq
    exact Or.inl ⟨heq, rfl⟩
  rename_i sc heq
  split
  · rename_i e heq2
    exact Or.inr (Or.inl ⟨sc, e, heq, heq2, rfl⟩)
  rename_i a heq2
  refine Or.inr (Or.inr ?_)
  split
  · rename_i str heq3
    obtain ⟨cid, cl, hp⟩ := persist_message_to_db_frame env
      (add_message_to_conversation
        { s with extracted_symptoms :=
            appendNewSymptoms s.extracted_symptoms sc.collected_symptom_details }
        "assistant" str none) "assistant" str
    rw [hp]
    obtain ⟨pm, hs⟩ := save_health_context_to_memory_frame env _
    rw [hs]
    exact ⟨sc, a, ⟨"assistant", str, none⟩, _, cid, cl, pm, _, heq, heq2, rfl, rfl, rfl⟩
  · rename_i heq3
    split
    · rename_i raw heq4
      obtain ⟨cid, cl, hp⟩ := persist_message_to_db_frame env
        (add_message_to_conversation
          { s with extracted_symptoms :=
              appendNewSymptoms s.extracted_symptoms sc.collected_symptom_details }
          "assistant"
          ("Could not format assessment. Raw data:\n```json\n" ++ raw ++ "\n```") none)
        "assistant" (pyTake raw 2000)
      rw [hp]
      exact ⟨sc, a, ⟨"assistant", _, none⟩, _, cid, cl, _, _, heq, heq2, rfl, rfl, rfl⟩
    · rename_i json_e heq4
      obtain ⟨cid, cl, hp⟩ := persist_message_to_db_frame env
        (add_message_to_conversation
          { s with extracted_symptoms :=
              appendNewSymptoms s.extracted_symptoms sc.collected_symptom_details }
          "assistant" ("Could not format or serialize assessment: " ++ json_e) none)
        "assistant" (pyTake json_e 500)
      rw [hp]
      exact ⟨sc, a, ⟨"assistant", _, none⟩, _, cid, cl, _, _, heq, heq2, rfl, rfl, rfl⟩

theorem appendNewSymptoms_extends (acc names : List String) :
    ∃ t, appendNewSymptoms acc names = acc ++ t := by
  induction names generalizing acc with
  | nil => exact ⟨[], by simp [appendNewSymptoms]⟩
  | cons x xs ih =>
    unfold appendNewSymptoms at ih ⊢
    simp only [List.foldl_cons]
    split
    · obtain ⟨t, ht⟩ := ih (acc ++ [x])
      exact ⟨[x] ++ t, by rw [ht, List.append_assoc]⟩
    · exact ih acc

theorem appendNewSymptoms_nodup (acc names : List String) (h : acc.Nodup) :
    (appendNewSymptoms acc names).Nodup := by
  induction names generalizing acc with
  | nil => exact h
  | cons x xs ih =>
    unfold appendNewSymptoms at ih ⊢
    simp only [List.foldl_cons]
    split
    · rename_i hcond
      exact ih (acc ++ [x]) (by simp [List.nodup_append, h, hcond.2])
    · exact ih acc h

theorem routeFacts_refl (s : SessionState) : RouteFacts s s :=
  ⟨convExt_refl s, rfl, ⟨[], by simp⟩, fun h => h, fun h => h⟩

theorem routeFacts_trans {s₁ s₂ s₃ : SessionState} (h1 : RouteFacts s₁ s₂)
    (h2 : RouteFacts s₂ s₃) : RouteFacts s₁ s₃ := by
  obtain ⟨c1, f1, ⟨t1, e1⟩, n1, p1⟩ := h1
  obtain ⟨c2, f2, ⟨t2, e2⟩, n2, p2⟩ := h2
  refine ⟨convExt_trans c1 c2, f2.trans f1, ⟨t1 ++ t2, ?_⟩, fun h => n2 (n1 h), fun h => p2 (p1 h)⟩
  rw [e2, e1, List.append_assoc]

/-- `RouteFacts` only inspects the five involved fields, so it transfers
along any state equation that preserves them. -/
theorem routeFacts_of_fields {s s' s'' : SessionState}
    (hc : s''.conversation = s'.conversation)
    (hf : s''.follow_up_answers = s'.follow_up_answers)
    (he : s''.extracted_symptoms = s'.extracted_symptoms)
    (hp : s''.pending_symptom_question_data = s'.pending_symptom_question_data)
    (hi : s''.symptom_checker_instance = s'.symptom_checker_instance)
    (h : RouteFacts s s') : RouteFacts s s'' := by
  obtain ⟨⟨ms, hm, hr⟩, f, ⟨t, e⟩, n, p⟩ := h
  refine ⟨⟨ms, hc ▸ hm, hr⟩, hf ▸ f, ⟨t, he ▸ e⟩, fun hh => he ▸ n hh, fun hh => ?_⟩
  unfold PendingHasChecker at *
  rw [hp, hi]
  exact p hh

theorem routeFacts_add_nonuser (s : SessionState) (role content : String)
    (lang : Option String) (h : role ≠ "user") :
    RouteFacts s (add_message_to_conversation s role content lang) := by
  unfold add_message_to_conversation
  refine ⟨⟨[_], rfl, ?_⟩, rfl, ⟨[], by simp⟩, fun hh => hh, fun hh => hh⟩
  intro m hm
  simp only [List.mem_singleton] at hm
  subst hm
  exact h

theorem routeFacts_persist (env : Env) (s : SessionState) (role content : String) :
    RouteFacts s (persist_message_to_db env s role content) := by
  obtain ⟨cid, cl, hp⟩ := persist_message_to_db_frame env s role content
  rw [hp]
  exact routeFacts_of_fields rfl rfl rfl rfl rfl (routeFacts_refl s)

theorem routeFacts_save (env : Env) (s : SessionState) :
    RouteFacts s (save_health_context_to_memory env s) := by
  obtain ⟨pm, hp⟩ := save_health_context_to_memory_frame env s
  rw [hp]
  exact routeFacts_of_fields rfl rfl rfl rfl rfl (routeFacts_refl s)

theorem gada_state_facts (env : Env) (s : SessionState) :
    RouteFacts s ((generate_and_display_assessment env s).state) := by
  unfold RouteFacts
  rcases gada_cases env s with ⟨h1, h2⟩ | ⟨c, e, h1, h2, h3⟩ |
    ⟨c, a, m, es, cid, cl, pm, la, h1, h2, hm, hes, h3⟩
  · rw [h2]
    refine ⟨convExt_refl _, rfl, ⟨[], by simp⟩, fun h => h, fun h => h⟩
  · rw [h3]
    exact ⟨convExt_refl _, rfl, ⟨[], by simp⟩, fun h => h, fun h => h⟩
  · rw [h3]
    subst hes
    refine ⟨⟨[m], rfl, ?_⟩, rfl, ?_, ?_, ?_⟩
    · intro m' hm'
      simp only [List.mem_singleton] at hm'
      subst hm'
      simp [hm]
    · exact appendNewSymptoms_extends s.extracted_symptoms c.collected_symptom_details
    · intro h
      exact appendNewSymptoms_nodup _ _ h
    · intro _ h
      simp at h

theorem routeFacts_set_advice_inactive {s sB : SessionState} (x : String)
    (h : RouteFacts s sB) :
    RouteFacts s { sB with last_advice_given := x, symptom_checker_active := false } :=
  routeFacts_of_fields rfl rfl rfl rfl rfl h

theorem processBody_state_facts (env : Env) (s : SessionState) (uq lc : String) :
    RouteFacts s ((processBody env s uq lc).state) := by
  unfold processBody
  dsimp only
  split
  · exact routeFacts_refl s
  rename_i nlu_output heq
  have base :
      RouteFacts s
        { s with
          extracted_symptoms :=
            appendNewSymptoms s.extracted_symptoms
              ((nlu_output.entities.filter
                (fun e => e.entity_type = "symptom")).map Entity.text) } :=
    ⟨⟨[], by simp, by simp⟩, rfl, appendNewSymptoms_extends _ _,
      fun h => appendNewSymptoms_nodup _ _ h, fun h => h⟩
  split
  · -- symptom-query branch
    split
    · -- checker construction raised
      exact ⟨⟨[], by simp, by simp⟩, rfl, appendNewSymptoms_extends _ _,
        fun h => appendNewSymptoms_nodup _ _ h, fun h => h⟩
    rename_i checker0 heq2
    split
    · -- a first question exists
      rename_i qd heq3
      split
      · exact ⟨⟨[], by simp, by simp⟩, rfl, appendNewSymptoms_extends _ _,
          fun h => appendNewSymptoms_nodup _ _ h, fun _ _ => by simp⟩
      rename_i qt heq4
      split
      · exact ⟨⟨[], by simp, by simp⟩, rfl, appendNewSymptoms_extends _ _,
          fun h => appendNewSymptoms_nodup _ _ h, fun _ _ => by simp⟩
      rename_i st heq5
      refine routeFacts_trans ?_ (routeFacts_persist env _ "assistant" _)
      refine routeFacts_trans ?_ (routeFacts_add_nonuser _ "assistant" _ none (by simp))
      exact ⟨⟨[], by simp, by simp⟩, rfl, appendNewSymptoms_extends _ _,
        fun h => appendNewSymptoms_nodup _ _ h, fun _ _ => by simp⟩
    · -- no question: assessment immediately
      rename_i heq3
      refine routeFacts_trans ?_ (gada_state_facts env _)
      exact ⟨⟨[], by simp, by simp⟩, rfl, appendNewSymptoms_extends _ _,
        fun h => appendNewSymptoms_nodup _ _ h, fun _ _ => by simp⟩
  · -- direct-response branch
    split
    · exact base
    rename_i bot heq2
    split
    · exact base
    rename_i tbot heq3
    refine routeFacts_trans ?_ (routeFacts_save env _)
    refine routeFacts_set_advice_inactive _ ?_
    refine routeFacts_trans ?_ (routeFacts_persist env _ "assistant" tbot)
    refine routeFacts_trans ?_ (routeFacts_add_nonuser _ "assistant" tbot none (by simp))
    exact base

theorem process_state_facts (env : Env) (s : SessionState) (uq lc : String) :
    RouteFacts s (process_and_display_response env s uq lc) := by
  unfold process_and_display_response
  split
  · refine routeFacts_of_fields rfl rfl rfl rfl rfl ?_
    exact routeFacts_add_nonuser s "system" _ none (by simp)
  split
  · rename_i s1 heq
    have hb := processBody_state_facts env s uq lc
    rw [heq] at hb
    simp only [Outcome.state_ok] at hb
    exact routeFacts_of_fields rfl rfl rfl rfl rfl hb
  · rename_i e sErr heq
    have hb := processBody_state_facts env s uq lc
    rw [heq] at hb
    simp only [Outcome.state_exn] at hb
    refine routeFacts_trans hb ?_
    refine ⟨?_, rfl, ⟨[], by simp [add_message_to_conversation]⟩,
      fun h => by simpa [add_message_to_conversation] using h, fun _ h => by simp at h⟩
    refine ⟨[⟨"system", _, none⟩], rfl, ?_⟩
    intro m hm
    simp only [List.mem_singleton] at hm
    subst hm
    simp

theorem userCount_add_user (s : SessionState) (content : String) (lang : Option String) :
    userCount (add_message_to_conversation s "user" content lang).conversation =
      userCount s.conversation + 1 := by
  unfold add_message_to_conversation userCount
  simp [List.filter_append]

theorem sysCount_add_role (s : SessionState) (role content : String) (lang : Option String)
    (h : role ≠ "system") :
    sysCount (add_message_to_conversation s role content lang).conversation =
      sysCount s.conversation := by
  unfold add_message_to_conversation sysCount
  simp [List.filter_append, h]

theorem userCount_add_nonuser (s : SessionState) (role content : String)
    (lang : Option String) (h : role ≠ "user") :
    userCount (add_message_to_conversation s role content lang).conversation =
      userCount s.conversation := by
  unfold add_message_to_conversation userCount
  simp [List.filter_append, h]

theorem gada_ok_facts (env : Env) (s0 s' : SessionState)
    (h : generate_and_display_assessment env s0 = .ok s') : RouteFacts s0 s' := by
  have hg := gada_state_facts env s0
  rw [h] at hg
  simpa using hg

/-- Case analysis of `handle_follow_up_answer`: with no checker instance or
no pending question it only deactivates the session; otherwise it appends
exactly one user message, records exactly one follow-up answer, only grows
`extracted_symptoms`, keeps a checker behind any pending question — and when
an exception escapes it, no system message has been appended and neither the
voice stage nor the active flag has been touched. -/
theorem hfa_facts (env : Env) (s : SessionState) (ans : String) :
    (((s.symptom_checker_instance = none ∨ s.pending_symptom_question_data = none) ∧
      handle_follow_up_answer env s ans =
        .ok { s with symptom_checker_active := false, voice_input_stage := none }) ∨
    (∃ c qd, s.symptom_checker_instance = some c ∧
      s.pending_symptom_question_data = some qd ∧
      userCount ((handle_follow_up_answer env s ans).state).conversation
        = userCount s.conversation + 1 ∧
      ((handle_follow_up_answer env s ans).state).follow_up_answers
        = s.follow_up_answers ++ [⟨qd.symptom_name, qd.question, ans⟩] ∧
      (∃ t, ((handle_follow_up_answer env s ans).state).extracted_symptoms
        = s.extracted_symptoms ++ t) ∧
      (s.extracted_symptoms.Nodup →
        ((handle_follow_up_answer env s ans).state).extracted_symptoms.Nodup) ∧
      PendingHasChecker ((handle_follow_up_answer env s ans).state))) ∧
    (∀ e s', handle_follow_up_answer env s ans = .exn e s' →
      sysCount s'.conversation = sysCount s.conversation ∧
      s'.voice_input_stage = s.voice_input_stage ∧
      s'.symptom_checker_active = s.symptom_checker_active) := by
  unfold handle_follow_up_answer
  dsimp only
  split
  · -- checker instance and pending question both present
    rename_i checker qd hI hP
    obtain ⟨cid, cl, hp⟩ := persist_message_to_db_frame env
      (add_message_to_conversation s "user" ans
        (some (langPrefix s.current_language_code))) "user" ans
    rw [hp]
    split
    · -- a further question exists
      rename_i qd2 heqq
      split
      · -- first translation raised
        constructor
        · refine Or.inr ⟨checker, qd, hI, hP, ?_,
            rfl,
            ⟨[], by simp [add_message_to_conversation]⟩,
            fun h => by simpa [add_message_to_conversation] using h, fun _ => by simp⟩
          show userCount (add_message_to_conversation s "user" ans
            (some (langPrefix s.current_language_code))).conversation
              = userCount s.conversation + 1
          exact userCount_add_user s ans _
        · rintro e' s' h
          injection h with h1 h2
          subst h2
          refine ⟨?_, rfl, rfl⟩
          show sysCount (add_message_to_conversation s "user" ans
            (some (langPrefix s.current_language_code))).conversation
              = sysCount s.conversation
          exact sysCount_add_role s "user" ans _ (by simp)
      rename_i qt heqt
      split
      · -- second translation raised
        constructor
        · refine Or.inr ⟨checker, qd, hI, hP, ?_,
            rfl,
            ⟨[], by simp [add_message_to_conversation]⟩,
            fun h => by simpa [add_message_to_conversation] using h, fun _ => by simp⟩
          show userCount (add_message_to_conversation s "user" ans
            (some (langPrefix s.current_language_code))).conversation
              = userCount s.conversation + 1
          exact userCount_add_user s ans _
        · rintro e' s' h
          injection h with h1 h2
          subst h2
          refine ⟨?_, rfl, rfl⟩
          show sysCount (add_message_to_conversation s "user" ans
            (some (langPrefix s.current_language_code))).conversation
              = sysCount s.conversation
          exact sysCount_add_role s "user" ans _ (by simp)
      rename_i st heqs
      -- next question delivered
      obtain ⟨cid2, cl2, hp2⟩ := persist_message_to_db_frame env _ "assistant" (st ++ ": " ++ qt)
      rw [hp2]
      constructor
      · refine Or.inr ⟨checker, qd, hI, hP, ?_,
          rfl,
          ⟨[], by simp [add_message_to_conversation]⟩,
          fun h => by simpa [add_message_to_conversation] using h,
          fun _ => by simp [add_message_to_conversation]⟩
        show userCount (add_message_to_conversation _ "assistant" (st ++ ": " ++ qt)
            none).conversation = userCount s.conversation + 1
        rw [userCount_add_nonuser _ "assistant" _ none (by simp)]
        show userCount (add_message_to_conversation s "user" ans
          (some (langPrefix s.current_language_code))).conversation
            = userCount s.conversation + 1
        exact userCount_add_user s ans _
      · rintro e' s' h
        simp at h
    · -- no further question: assessment
      rename_i heqq
      split
      · -- assessment generation raised inside gada
        rename_i e s' heqg
        rcases gada_cases env _ with ⟨h1, h2⟩ | ⟨c', e', h1, h2, h3⟩ |
          ⟨c', a, m, es, cidg, clg, pmg, lag, h1, h2, hm, hes, h3⟩
        · rw [h2] at heqg
          simp at heqg
        · rw [h3] at heqg
          injection heqg with hh1 hh2
          subst hh2
          constructor
          · refine Or.inr ⟨checker, qd, hI, hP, ?_,
              rfl,
              ⟨[], by simp [add_message_to_conversation]⟩,
              fun h => by simpa [add_message_to_conversation] using h, fun _ => by simp⟩
            show userCount (add_message_to_conversation s "user" ans
              (some (langPrefix s.current_language_code))).conversation
                = userCount s.conversation + 1
            exact userCount_add_user s ans _
          · rintro e'' s'' h
            injection h with g1 g2
            subst g2
            refine ⟨?_, rfl, rfl⟩
            show sysCount (add_message_to_conversation s "user" ans
              (some (langPrefix s.current_language_code))).conversation
                = sysCount s.conversation
            exact sysCount_add_role s "user" ans _ (by simp)
        · rw [h3] at heqg
          simp at heqg
      · -- assessment emitted
        rename_i s' heqg
        obtain ⟨hconv, hfua, ⟨t, hext⟩, hnodup, hphc⟩ := gada_ok_facts env _ s' heqg
        constructor
        · refine Or.inr ⟨checker, qd, hI, hP, ?_, ?_, ?_, ?_, ?_⟩
          · simp only [Outcome.state_ok]
            show userCount s'.conversation = userCount s.conversation + 1
            rw [userCount_of_convExt hconv]
            show userCount (add_message_to_conversation s "user" ans
              (some (langPrefix s.current_language_code))).conversation
                = userCount s.conversation + 1
            exact userCount_add_user s ans _
          · simp only [Outcome.state_ok]
            show s'.follow_up_answers = _
            exact hfua
          · simp only [Outcome.state_ok]
            show ∃ u, s'.extracted_symptoms = s.extracted_symptoms ++ u
            exact ⟨t, hext⟩
          · intro hnd
            simp only [Outcome.state_ok]
            show s'.extracted_symptoms.Nodup
            exact hnodup hnd
          · simp only [Outcome.state_ok]
            show PendingHasChecker { s' with voice_input_stage := none }
            exact fun hpend => hphc (fun _ => by simp) hpend
        · rintro e' s'' h
          simp at h
  · -- stale state: no checker instance or no pending question
    rename_i hne
    constructor
    · refine Or.inl ⟨?_, rfl⟩
      rcases hInst : s.symptom_checker_instance with _ | c
      · exact Or.inl rfl
      rcases hPend : s.pending_symptom_question_data with _ | p
      · exact Or.inr rfl
      · exact absurd (hne c p hInst hPend) (fun h => h)
    · rintro e' s' h
      simp at h

/-- Combined behavioral facts of the Send-button callback: empty input is a
complete no-op; a non-empty submission appends exactly one user message
(when every pending question has its checker, as in every reachable state);
the pending-question/checker invariant, growth and duplicate-freedom of
`extracted_symptoms` are preserved; and an active session with a pending
question delegates the trimmed input to the follow-up loop, recording it as
the answer to exactly that pending question. -/
theorem hts_facts (env : Env) (s : SessionState) :
    (pyStrip s.text_query_input_area = "" → handle_text_submission env s = .ok s) ∧
    (PendingHasChecker s → pyStrip s.text_query_input_area ≠ "" →
      userCount ((handle_text_submission env s).state).conversation
        = userCount s.conversation + 1) ∧
    (PendingHasChecker s → PendingHasChecker ((handle_text_submission env s).state)) ∧
    (∃ t, ((handle_text_submission env s).state).extracted_symptoms
        = s.extracted_symptoms ++ t) ∧
    (s.extracted_symptoms.Nodup →
      ((handle_text_submission env s).state).extracted_symptoms.Nodup) ∧
    (∀ c qd, s.symptom_checker_active = true → s.symptom_checker_instance = some c →
      s.pending_symptom_question_data = some qd → pyStrip s.text_query_input_area ≠ "" →
      ((handle_text_submission env s).state).follow_up_answers
        = s.follow_up_answers ++
            [⟨qd.symptom_name, qd.question, pyStrip s.text_query_input_area⟩]) := by
  unfold handle_text_submission
  dsimp only
  split
  · rename_i hempty
    exact ⟨fun _ => rfl, fun _ hne => absurd hempty hne, fun h => h, ⟨[], by simp⟩,
      fun h => h, fun c qd _ _ _ hne => absurd hempty hne⟩
  rename_i hnonempty
  split
  · -- delegate to the follow-up loop
    rename_i hguard
    obtain ⟨hcase, hexn⟩ := hfa_facts env s (pyStrip s.text_query_input_area)
    rcases hcase with ⟨hfail, heq⟩ | ⟨c0, qd0, hI0, hP0, hcount, hfua, hext, hnodup, hphc⟩
    · -- impossible under the invariant, harmless without it
      rw [heq]
      have hP : s.pending_symptom_question_data ≠ none := hguard.2
      refine ⟨fun h => absurd h hnonempty, ?_, ?_, ⟨[], by simp⟩, fun h => h, ?_⟩
      · intro hPHC _
        rcases hfail with h | h
        · exact absurd h (hPHC hP)
        · exact absurd h hP
      · intro hPHC
        exact fun hpend => hPHC hpend
      · intro c qd _ hIc _ _
        rcases hfail with h | h
        · rw [hIc] at h
          simp at h
        · exact absurd h hP
    · cases hR : handle_follow_up_answer env s (pyStrip s.text_query_input_area) with
      | ok s1 =>
        rw [hR] at hcount hfua hext hnodup hphc
        simp only [Outcome.state_ok] at hcount hfua hext hnodup hphc
        dsimp only
        refine ⟨fun h => absurd h hnonempty, fun _ _ => hcount, fun _ => hphc,
          hext, hnodup, ?_⟩
        intro c qd _ hIc hPc _
        rw [hI0] at hIc
        rw [hP0] at hPc
        injection hIc with hIc
        injection hPc with hPc
        subst hIc
        subst hPc
        exact hfua
      | exn e s1 =>
        rw [hR] at hcount hfua hext hnodup hphc
        simp only [Outcome.state_exn] at hcount hfua hext hnodup hphc
        dsimp only
        refine ⟨fun h => absurd h hnonempty, fun _ _ => hcount, fun _ => hphc,
          hext, hnodup, ?_⟩
        intro c qd _ hIc hPc _
        rw [hI0] at hIc
        rw [hP0] at hPc
        injection hIc with hIc
        injection hPc with hPc
        subst hIc
        subst hPc
        exact hfua
  · -- new-query path
    rename_i hguard
    obtain ⟨cid, cl, hp⟩ := persist_message_to_db_frame env
      (add_message_to_conversation s "user" (pyStrip s.text_query_input_area)
        (some (langPrefix s.current_language_code))) "user" (pyStrip s.text_query_input_area)
    rw [hp]
    split
    · -- stale active session cleared
      rename_i hact
      obtain ⟨hconv, hfua, hext, hnodup, hphc⟩ := process_state_facts env _
        (pyStrip s.text_query_input_area) s.current_language_code
      refine ⟨fun h => absurd h hnonempty, ?_, ?_, ?_, ?_, ?_⟩
      · intro _ _
        show userCount (process_and_display_response env _ _ _).conversation = _
        rw [userCount_of_convExt hconv]
        show userCount (add_message_to_conversation s "user" (pyStrip s.text_query_input_area)
          (some (langPrefix s.current_language_code))).conversation
            = userCount s.conversation + 1
        exact userCount_add_user s _ _
      · intro _
        show PendingHasChecker (process_and_display_response env _ _ _)
        exact hphc (fun h => by simp at h)
      · show ∃ t, (process_and_display_response env _ _ _).extracted_symptoms
          = s.extracted_symptoms ++ t
        obtain ⟨t, ht⟩ := hext
        exact ⟨t, by rw [ht]; simp [add_message_to_conversation]⟩
      · intro hnd
        show (process_and_display_response env _ _ _).extracted_symptoms.Nodup
        exact hnodup (by simpa [add_message_to_conversation] using hnd)
      · intro c qd hac _ hPc _
        exact absurd ⟨hac, by rw [hPc]; simp⟩ hguard
    · -- no stale session
      rename_i hact
      obtain ⟨hconv, hfua, hext, hnodup, hphc⟩ := process_state_facts env _
        (pyStrip s.text_query_input_area) s.current_language_code
      refine ⟨fun h => absurd h hnonempty, ?_, ?_, ?_, ?_, ?_⟩
      · intro _ _
        show userCount (process_and_display_response env _ _ _).conversation = _
        rw [userCount_of_convExt hconv]
        show userCount (add_message_to_conversation s "user" (pyStrip s.text_query_input_area)
          (some (langPrefix s.current_language_code))).conversation
            = userCount s.conversation + 1
        exact userCount_add_user s _ _
      · intro hPHC
        show PendingHasChecker (process_and_display_response env _ _ _)
        refine hphc ?_
        intro hpend hinst
        exact hPHC hpend hinst
      · show ∃ t, (process_and_display_response env _ _ _).extracted_symptoms
          = s.extracted_symptoms ++ t
        obtain ⟨t, ht⟩ := hext
        exact ⟨t, by rw [ht]; simp [add_message_to_conversation]⟩
      · intro hnd
        show (process_and_display_response env _ _ _).extracted_symptoms.Nodup
        exact hnodup (by simpa [add_message_to_conversation] using hnd)
      · intro c qd hac _ hPc _
        exact absurd ⟨hac, by rw [hPc]; simp⟩ hguard

/-- The `processing_stt` block never touches `follow_up_answers` (it never
delegates to the follow-up loop), only grows `extracted_symptoms`, and keeps
the pending-question/checker invariant. -/
theorem voice_state_facts (env : Env) (s : SessionState) :
    (voice_stt_step env s).follow_up_answers = s.follow_up_answers ∧
    (∃ t, (voice_stt_step env s).extracted_symptoms = s.extracted_symptoms ++ t) ∧
    (s.extracted_symptoms.Nodup → (voice_stt_step env s).extracted_symptoms.Nodup) ∧
    (PendingHasChecker s → PendingHasChecker (voice_stt_step env s)) := by
  unfold voice_stt_step
  dsimp only
  split
  · split
    · rename_i cleaned heqc
      split
      · -- transcription raised
        exact ⟨rfl, ⟨[], by simp [add_message_to_conversation]⟩,
          fun h => by simpa [add_message_to_conversation] using h, fun h => h⟩
      rename_i stt heqt
      split
      · -- translation normalization raised
        exact ⟨rfl, ⟨[], by simp [add_message_to_conversation]⟩,
          fun h => by simpa [add_message_to_conversation] using h, fun h => h⟩
      rename_i tt heqtt
      split
      · -- non-empty transcription: routed as a new query
        obtain ⟨cid, cl, hp⟩ := persist_message_to_db_frame env
          (add_message_to_conversation s "user" tt
            (some (langPrefix s.current_language_code))) "user" tt
        rw [hp]
        obtain ⟨hconv, hfua, hext, hnodup, hphc⟩ := process_state_facts env _
          tt s.current_language_code
        refine ⟨hfua, ?_, ?_, ?_⟩
        · obtain ⟨t, ht⟩ := hext
          exact ⟨t, by rw [ht]; simp [add_message_to_conversation]⟩
        · intro hnd
          exact hnodup (by simpa [add_message_to_conversation] using hnd)
        · intro hPHC
          exact hphc (fun hp => hPHC hp)
      · -- empty transcription: diagnostic only
        exact ⟨rfl, ⟨[], by simp [add_message_to_conversation]⟩,
          fun h => by simpa [add_message_to_conversation] using h, fun h => h⟩
    · exact ⟨rfl, ⟨[], by simp⟩, fun h => h, fun h => h⟩
  · exact ⟨rfl, ⟨[], by simp⟩, fun h => h, fun h => h⟩

theorem process_userCount (env : Env) (s : SessionState) (uq lc : String) :
    userCount (process_and_display_response env s uq lc).conversation =
      userCount s.conversation :=
  userCount_of_convExt (process_state_facts env s uq lc).1

/-- A successfully transcribed, non-empty voice utterance appends exactly
one user message before being processed as a new query. -/
theorem voice_userCount (env : Env) (s : SessionState) (cad : List Int) (tr det : String)
    (h1 : s.voice_input_stage = some "processing_stt")
    (h2 : s.cleaned_audio_data = some cad)
    (h3 : env.transcribe_audio cad s.captured_audio_sample_rate s.current_language_code
      = Except.ok ⟨tr, det⟩)
    (h4 : det = s.current_language_code)
    (h5 : pyStrip tr ≠ "") :
    userCount (voice_stt_step env s).conversation = userCount s.conversation + 1 := by
  unfold voice_stt_step
  rw [if_pos h1, h2]
  dsimp only
  rw [h3]
  dsimp only
  rw [h4]
  rw [if_neg (fun hne => hne rfl)]
  dsimp only
  rw [if_pos h5]
  obtain ⟨cid, cl, hp⟩ := persist_message_to_db_frame env
    (add_message_to_conversation s "user" tr
      (some (langPrefix s.current_language_code))) "user" tr
  rw [hp]
  show userCount (process_and_display_response env
    { add_message_to_conversation s "user" tr
        (some (langPrefix s.current_language_code)) with
      current_chat_id := cid, chat_list := cl } tr s.current_language_code).conversation
        = userCount s.conversation + 1
  rw [process_userCount]
  show userCount (add_message_to_conversation s "user" tr
    (some (langPrefix s.current_language_code))).conversation
      = userCount s.conversation + 1
  exact userCount_add_user s tr _

theorem audio_clean_step_cases (env : Env) (s : SessionState) :
    (∃ e, audio_clean_step env s = .exn e s) ∨
    (∃ cd sr, audio_clean_step env s = .ok
      { s with cleaned_audio_data := some cd, captured_audio_sample_rate := sr,
               voice_input_stage := some "processing_stt" }) ∨
    audio_clean_step env s = .ok s := by
  unfold audio_clean_step
  split
  · exact Or.inr (Or.inr rfl)
  split
  · exact Or.inl ⟨_, rfl⟩
  · exact Or.inr (Or.inl ⟨_, _, rfl⟩)

theorem pipeline_state_facts (env : Env) (s : SessionState) :
    ((pipeline_step env s).state).follow_up_answers = s.follow_up_answers ∧
    (∃ t, ((pipeline_step env s).state).extracted_symptoms = s.extracted_symptoms ++ t) ∧
    (s.extracted_symptoms.Nodup → ((pipeline_step env s).state).extracted_symptoms.Nodup) ∧
    (PendingHasChecker s → PendingHasChecker ((pipeline_step env s).state)) := by
  unfold pipeline_step
  rcases audio_clean_step_cases env s with ⟨e, heq⟩ | ⟨cd, sr, heq⟩ | heq <;> rw [heq]
  · exact ⟨rfl, ⟨[], by simp⟩, fun h => h, fun h => h⟩
  · obtain ⟨hfua, hext, hnodup, hphc⟩ := voice_state_facts env
      { s with cleaned_audio_data := some cd, captured_audio_sample_rate := sr,
               voice_input_stage := some "processing_stt" }
    exact ⟨hfua, hext, hnodup, fun h => hphc (fun hp => h hp)⟩
  · obtain ⟨hfua, hext, hnodup, hphc⟩ := voice_state_facts env s
    exact ⟨hfua, hext, hnodup, hphc⟩

theorem step_state_facts (env : Env) (s : SessionState) (e : Event) :
    (PendingHasChecker s → PendingHasChecker ((step env s e).state)) ∧
    (s.extracted_symptoms.Nodup → ((step env s e).state).extracted_symptoms.Nodup) ∧
    (((step env s e).state).extracted_symptoms = [] ∨
      ∃ t, ((step env s e).state).extracted_symptoms = s.extracted_symptoms ++ t) := by
  cases e with
  | textSubmit text =>
    obtain ⟨_, _, hphc, hext, hnodup, _⟩ :=
      hts_facts env { s with text_query_input_area := text }
    exact ⟨fun h => hphc h, fun h => hnodup h, Or.inr hext⟩
  | audioCaptured bytes =>
    obtain ⟨_, hext, hnodup, hphc⟩ :=
      pipeline_state_facts env { s with captured_audio_data := some bytes }
    exact ⟨fun h => hphc h, fun h => hnodup h, Or.inr hext⟩
  | rerunPipeline =>
    obtain ⟨_, hext, hnodup, hphc⟩ := pipeline_state_facts env s
    exact ⟨hphc, hnodup, Or.inr hext⟩
  | languageChange sel =>
    simp only [step, Outcome.state_ok]
    unfold language_change_step
    split
    · split
      · exact ⟨fun _ h => by simp at h, fun _ => by simp, Or.inl rfl⟩
      · exact ⟨fun h => h, fun h => h, Or.inr ⟨[], by simp⟩⟩
    · exact ⟨fun h => h, fun h => h, Or.inr ⟨[], by simp⟩⟩
  | clearSession =>
    simp only [step, Outcome.state_ok]
    unfold clear_session_step
    exact ⟨fun _ h => by simp at h, fun _ => by simp, Or.inl rfl⟩
  | newChat =>
    simp only [step, Outcome.state_ok]
    unfold new_chat_step
    exact ⟨fun h => h, fun h => h, Or.inr ⟨[], by simp⟩⟩
  | loadChat cid =>
    simp only [step, Outcome.state_ok]
    unfold load_chat_step
    split
    · exact ⟨fun h => h, fun h => h, Or.inr ⟨[], by simp⟩⟩
    · exact ⟨fun h => h, fun h => h, Or.inr ⟨[], by simp⟩⟩
  | login sess =>
    simp only [step, Outcome.state_ok]
    exact ⟨fun h => h, fun h => h, Or.inr ⟨[], by simp⟩⟩
  | authRefresh =>
    simp only [step, Outcome.state_ok]
    unfold auth_refresh_step
    repeat' (first | split | dsimp only)
    all_goals exact ⟨fun h => h, fun h => h, Or.inr ⟨[], by simp⟩⟩

theorem record_answer_questions (c : Checker) (x y z : String) :
    (c.record_answer x y z).questions = c.questions := by
  unfold Checker.record_answer
  split <;> rfl

/-- When the checker instance is present and the assessment call succeeds,
`generate_and_display_assessment` emits exactly one assistant message and
closes the session. -/
theorem gada_assessment_ok (env : Env) (s0 : SessionState) (c0 : Checker)
    (hI : s0.symptom_checker_instance = some c0)
    (hasq : ∃ a', env.generate_preliminary_assessment c0 = Except.ok a') :
    ∃ m s', generate_and_display_assessment env s0 = .ok s' ∧
      m.role = "assistant" ∧
      s'.conversation = s0.conversation ++ [m] ∧
      s'.symptom_checker_active = false ∧
      s'.symptom_checker_instance = none ∧
      s'.pending_symptom_question_data = none := by
  rcases gada_cases env s0 with ⟨h1, h2⟩ | ⟨c', e, h1, h2, h3⟩ |
    ⟨c', a', m, es, cid, cl, pm, la, h1, h2, hm, hes, h3⟩
  · rw [hI] at h1
    simp at h1
  · rw [hI] at h1
    injection h1 with h1
    subst h1
    obtain ⟨a0, ha0⟩ := hasq
    rw [ha0] at h2
    simp at h2
  · rw [h3]
    exact ⟨m, _, rfl, hm, rfl, rfl, rfl, rfl⟩

/-- Continuation form of `gada_assessment_ok` for the terminal arm of the
follow-up loop. -/
theorem match_gada_ok {env : Env} {S : SessionState} (c0 : Checker)
    (hI : S.symptom_checker_instance = some c0)
    (hasq : ∃ a', env.generate_preliminary_assessment c0 = Except.ok a')
    (P : Outcome SessionState → Prop)
    (h : ∀ (m : Message) (s' : SessionState), m.role = "assistant" →
      s'.conversation = S.conversation ++ [m] →
      s'.symptom_checker_active = false →
      s'.symptom_checker_instance = none →
      s'.pending_symptom_question_data = none →
      P (.ok { s' with voice_input_stage := none })) :
    P (match generate_and_display_assessment env S with
       | .exn e s' => .exn e s'
       | .ok s' => .ok { s' with voice_input_stage := none }) := by
  obtain ⟨m, s', hok, hm, hconv, hact, hinst, hpend⟩ := gada_assessment_ok env S c0 hI hasq
  rw [hok]
  exact h m s' hm hconv hact hinst hpend

/-- One follow-up round, under translations that do not raise and an
assessment call that succeeds: the last remaining answer closes the session
with an assessment, any earlier answer re-arms the next pending question;
either way exactly two messages (the user's answer and an assistant message)
are appended. -/
theorem hfa_round (env : Env) (s : SessionState) (c : Checker) (qd : Question) (a : String)
    (hTr : ∀ t l, ∃ r, env.translate_text t l = Except.ok r)
    (hAs : ∀ c', ∃ a', env.generate_preliminary_assessment c' = Except.ok a')
    (hI : s.symptom_checker_instance = some c)
    (hP : s.pending_symptom_question_data = some qd) :
    (c.questions = [] → ∃ m1 m2 s', handle_follow_up_answer env s a = .ok s' ∧
      s'.symptom_checker_active = false ∧
      s'.symptom_checker_instance = none ∧
      s'.pending_symptom_question_data = none ∧
      s'.conversation = s.conversation ++ [m1, m2] ∧ m2.role = "assistant") ∧
    (∀ q2 qs, c.questions = q2 :: qs → ∃ m1 m2 s',
      handle_follow_up_answer env s a = .ok s' ∧
      s'.symptom_checker_active = s.symptom_checker_active ∧
      s'.symptom_checker_instance = some
        ⟨qs, (c.record_answer qd.symptom_name qd.question a).collected_symptom_details⟩ ∧
      s'.pending_symptom_question_data = some q2 ∧
      s'.conversation = s.conversation ++ [m1, m2] ∧ m2.role = "assistant") := by
  unfold handle_follow_up_answer
  rw [hI, hP]
  dsimp only
  obtain ⟨cid, cl, hp⟩ := persist_message_to_db_frame env
    (add_message_to_conversation s "user" a
      (some (langPrefix s.current_language_code))) "user" a
  rw [hp]
  have hu : ∃ u, (add_message_to_conversation s "user" a
      (some (langPrefix s.current_language_code))).conversation
        = s.conversation ++ [u] := ⟨_, rfl⟩
  obtain ⟨u, hu⟩ := hu
  constructor
  · -- terminal round
    intro hq
    have hq2 : (c.record_answer qd.symptom_name qd.question a).get_next_question.1 = none := by
      unfold Checker.get_next_question
      rw [record_answer_questions, hq]
    rw [hq2]
    dsimp only
    refine match_gada_ok
      ((c.record_answer qd.symptom_name qd.question a).get_next_question.2) ?_ (hAs _)
      (fun o => ∃ m1 m2 s', o = Outcome.ok s' ∧
        s'.symptom_checker_active = false ∧
        s'.symptom_checker_instance = none ∧
        s'.pending_symptom_question_data = none ∧
        s'.conversation = s.conversation ++ [m1, m2] ∧ m2.role = "assistant") ?_
    · exact rfl
    intro m s' hm hconv hact hinst hpend
    refine ⟨u, m, _, rfl, hact, hinst, hpend, ?_, hm⟩
    show s'.conversation = s.conversation ++ [u, m]
    rw [hconv]
    show (add_message_to_conversation s "user" a
      (some (langPrefix s.current_language_code))).conversation ++ [m]
        = s.conversation ++ [u, m]
    rw [hu, List.append_assoc]
    rfl
  · -- a further question remains
    intro q2 qs hq
    have hq2 : (c.record_answer qd.symptom_name qd.question a).get_next_question =
        (some q2,
          ⟨qs, (c.record_answer qd.symptom_name qd.question a).collected_symptom_details⟩) := by
      unfold Checker.get_next_question
      rw [record_answer_questions, hq]
    rw [hq2]
    dsimp only
    obtain ⟨qt, hqt⟩ := hTr q2.question s.current_language_code
    rw [hqt]
    dsimp only
    obtain ⟨st, hst⟩ := hTr q2.symptom_name s.current_language_code
    rw [hst]
    dsimp only
    obtain ⟨cid2, cl2, hp2⟩ := persist_message_to_db_frame env _ "assistant" (st ++ ": " ++ qt)
    rw [hp2]
    refine ⟨u, ⟨"assistant", st ++ ": " ++ qt, none⟩, _, rfl, rfl, rfl, rfl, ?_, rfl⟩
    show (add_message_to_conversation s "user" a
      (some (langPrefix s.current_language_code))).conversation ++
        [⟨"assistant", st ++ ": " ++ qt, none⟩]
          = s.conversation ++ [u, ⟨"assistant", st ++ ": " ++ qt, none⟩]
    rw [hu, List.append_assoc]
    rfl

/-- The follow-up loop, run to exhaustion: with a checker holding `qs`
remaining questions behind the pending one, exactly `qs.length + 1` answers
drive the loop to termination, appending two messages per round, ending in
exactly one final assistant (assessment) message with the symptom session
closed. -/
theorem run_follow_ups_spec (env : Env)
    (hTr : ∀ t l, ∃ r, env.translate_text t l = Except.ok r)
    (hAs : ∀ c', ∃ a', env.generate_preliminary_assessment c' = Except.ok a') :
    ∀ (qs : List Question) (col : List String) (s : SessionState) (qd : Question)
      (answers : List String),
      s.symptom_checker_instance = some ⟨qs, col⟩ →
      s.pending_symptom_question_data = some qd →
      s.symptom_checker_active = true →
      answers.length = qs.length + 1 →
      ∃ s' ms, run_follow_ups env s answers = .ok s' ∧
        s'.symptom_checker_active = false ∧
        s'.symptom_checker_instance = none ∧
        s'.pending_symptom_question_data = none ∧
        s'.conversation = s.conversation ++ ms ∧
        ms.length = 2 * answers.length ∧
        (∃ m, ms.getLast? = some m ∧ m.role = "assistant") := by
  intro qs
  induction qs with
  | nil =>
    intro col s qd answers hI hP hact hlen
    cases answers with
    | nil => simp at hlen
    | cons a rest =>
      cases rest with
      | cons b r => simp at hlen
      | nil =>
        obtain ⟨hterm, _⟩ := hfa_round env s ⟨[], col⟩ qd a hTr hAs hI hP
        obtain ⟨m1, m2, s', hok, h1, h2, h3, hconv, hrole⟩ := hterm rfl
        refine ⟨s', [m1, m2], ?_, h1, h2, h3, hconv, rfl, ⟨m2, rfl, hrole⟩⟩
        unfold run_follow_ups
        rw [hok]
        rfl
  | cons q2 qs ih =>
    intro col s qd answers hI hP hact hlen
    cases answers with
    | nil => simp at hlen
    | cons a rest =>
      obtain ⟨_, hcont⟩ := hfa_round env s ⟨q2 :: qs, col⟩ qd a hTr hAs hI hP
      obtain ⟨m1, m2, s', hok, hact', hinst', hpend', hconv, hrole⟩ := hcont q2 qs rfl
      have hlen' : rest.length = qs.length + 1 := by
        simp only [List.length_cons] at hlen
        omega
      obtain ⟨s'', ms, hrun, f1, f2, f3, hconv2, hmslen, hlast⟩ :=
        ih ((Checker.record_answer ⟨q2 :: qs, col⟩
              qd.symptom_name qd.question a).collected_symptom_details)
          s' q2 rest hinst' hpend' (hact'.trans hact) hlen'
      refine ⟨s'', [m1, m2] ++ ms, ?_, f1, f2, f3, ?_, ?_, ?_⟩
      · unfold run_follow_ups
        rw [hok]
        exact hrun
      · rw [hconv2, hconv, List.append_assoc]
      · simp only [List.length_append, List.length_cons, List.length_nil, hmslen]
        omega
      · obtain ⟨m, hm1, hm2⟩ := hlast
        have hne : ms ≠ [] := by
          intro h
          rw [h] at hm1
          simp at hm1
        exact ⟨m, by rw [List.getLast?_append_of_ne_nil _ hne]; exact hm1, hm2⟩

/-- Every reachable session state keeps a checker behind any pending
question and a duplicate-free symptom list. -/
theorem reachable_facts (env : Env) (s : SessionState) (h : Reachable env s) :
    PendingHasChecker s ∧ s.extracted_symptoms.Nodup := by
  induction h with
  | init =>
    refine ⟨fun h => absurd rfl h, ?_⟩
    show List.Nodup []
    simp
  | next hr hstep ih =>
    obtain ⟨hphc, hnodup⟩ := ih
    rename_i s0 e s1
    obtain ⟨f1, f2, _⟩ := step_state_facts env s0 e
    rw [hstep] at f1 f2
    exact ⟨f1 hphc, f2 hnodup⟩

/-- C6: the persistence helpers never raise to their caller (they return a
plain state, swallowing backend failures at the exact statement where they
occur) and never modify the in-memory conversation log; when the backend is
unconfigured or no authenticated session exists they return the state
unchanged. -/
theorem claim_C6 (env : Env) (s : SessionState) (role content : String) :
    (persist_message_to_db env s role content).conversation = s.conversation ∧
    (save_health_context_to_memory env s).conversation = s.conversation ∧
    ((env.is_supabase_configured = false ∨ s.supabase_session = none) →
      persist_message_to_db env s role content = s ∧
      save_health_context_to_memory env s = s) := by
  obtain ⟨cid, cl, hp⟩ := persist_message_to_db_frame env s role content
  obtain ⟨pm, hs⟩ := save_health_context_to_memory_frame env s
  refine ⟨by rw [hp], by rw [hs], ?_⟩
  intro h
  constructor
  · unfold persist_message_to_db
    rcases h with h | h
    · rw [if_pos h]
    · split
      · rfl
      · rw [h]
  · unfold save_health_context_to_memory
    rcases h with h | h
    · rw [if_pos h]
    · split
      · rfl
      · rw [h]

/-- C6 witness: with an unconfigured backend the helpers are no-ops and the
conversation is untouched. -/
theorem claim_C6_witness :
    (persist_message_to_db envTriv initState "user" "hi").conversation
      = initState.conversation ∧
    (save_health_context_to_memory envTriv initState).conversation
      = initState.conversation ∧
    (persist_message_to_db envTriv initState "user" "hi" = initState ∧
      save_health_context_to_memory envTriv initState = initState) :=
  ⟨(claim_C6 envTriv initState "user" "hi").1,
   (claim_C6 envTriv initState "user" "hi").2.1,
   (claim_C6 envTriv initState "user" "hi").2.2 (Or.inl rfl)⟩

/-- C7: once the checker has produced an assessment, an assistant message is
appended no matter what structured rendering and JSON serialization do —
the computed assessment is never dropped without an assistant message. -/
theorem claim_C7 (env : Env) (s : SessionState) (c : Checker) (a : Assessment)
    (hI : s.symptom_checker_instance = some c)
    (hA : env.generate_preliminary_assessment c = Except.ok a) :
    ∃ m s', generate_and_display_assessment env s = .ok s' ∧ m.role = "assistant" ∧
      s'.conversation = s.conversation ++ [m] := by
  obtain ⟨m, s', hok, hm, hconv, _, _, _⟩ := gada_assessment_ok env s c hI ⟨a, hA⟩
  exact ⟨m, s', hok, hm, hconv⟩

/-- C7 witness: even when every translation call and the JSON serializer
raise, the assessment turn still appends one assistant message. -/
theorem claim_C7_witness :
    sInst.symptom_checker_instance = some ⟨[], []⟩ ∧
    (∃ m s', generate_and_display_assessment envRenderFail sInst = .ok s' ∧
      m.role = "assistant" ∧ s'.conversation = sInst.conversation ++ [m]) :=
  ⟨rfl, claim_C7 envRenderFail sInst ⟨[], []⟩
    ⟨some "summary", some "mild", NextSteps.strVal "rest", none, none, some "see a doctor"⟩
    rfl rfl⟩

/-- C8: in every reachable state `extracted_symptoms` is duplicate-free, and
every interaction step either resets it to empty or extends it in place
(preserving insertion order of the existing entries). -/
theorem claim_C8 (env : Env) (s : SessionState) (e : Event) (h : Reachable env s) :
    s.extracted_symptoms.Nodup ∧
    (((step env s e).state).extracted_symptoms = [] ∨
      ∃ t, ((step env s e).state).extracted_symptoms = s.extracted_symptoms ++ t) :=
  ⟨(reachable_facts env s h).2, (step_state_facts env s e).2.2⟩

/-- C8 witness at the initial state and a session-clear step. -/
theorem claim_C8_witness :
    initState.extracted_symptoms.Nodup ∧
    (((step envTriv initState Event.clearSession).state).extracted_symptoms = [] ∨
      ∃ t, ((step envTriv initState Event.clearSession).state).extracted_symptoms
        = initState.extracted_symptoms ++ t) :=
  claim_C8 envTriv initState Event.clearSession Reachable.init

/-- C9 (amended): in every reachable state, a pending follow-up question
implies the checker instance is present (the follow-up path never
dereferences a missing checker); the session need not still be active. -/
theorem claim_C9_amended (env : Env) (s : SessionState) (h : Reachable env s) :
    s.pending_symptom_question_data ≠ none → s.symptom_checker_instance ≠ none :=
  (reachable_facts env s h).1

/-- C9 witness: a reachable state with a pending question indeed has its
checker instance. -/
theorem claim_C9_witness :
    c9s1.pending_symptom_question_data ≠ none ∧ c9s1.symptom_checker_instance ≠ none :=
  ⟨by decide, claim_C9_amended envTriv c9s1
    (Reachable.next Reachable.init rfl) (by decide)⟩

/-- C9 counterexample: after a symptom session with a pending question
receives a voice utterance that the NLU classifies as a non-symptom query,
the reachable state `c9state` has a pending question while the active flag
is false — refuting "pending implies the session is active". -/
theorem claim_C9_counterexample :
    Reachable envTriv c9state ∧
    c9state.pending_symptom_question_data ≠ none ∧
    c9state.symptom_checker_active = false :=
  ⟨Reachable.next (Reachable.next Reachable.init rfl) rfl, by decide, by decide⟩

/-- C10: submitting empty or whitespace-only text returns the state
entirely unchanged: no message, no routing, no field of the session is
touched. -/
theorem claim_C10 (env : Env) (s : SessionState)
    (h : pyStrip s.text_query_input_area = "") :
    handle_text_submission env s = .ok s :=
  (hts_facts env s).1 h

/-- C10 witness on a whitespace-only input area. -/
theorem claim_C10_witness :
    pyStrip sWs.text_query_input_area = "" ∧
    handle_text_submission envTriv sWs = .ok sWs :=
  ⟨by decide, claim_C10 envTriv sWs (by decide)⟩

/-- C1 (amended): typed submissions follow the routing rule — with an
active symptom session and a pending question, the trimmed input is
delegated to the follow-up loop and recorded as the answer to exactly that
pending question.  A transcribed voice utterance, however, is always routed
as a new query: the `processing_stt` block never touches
`follow_up_answers`, even while a follow-up question is pending. -/
theorem claim_C1_amended (env : Env) (s : SessionState) (c : Checker) (qd : Question) :
    (s.symptom_checker_active = true → s.symptom_checker_instance = some c →
      s.pending_symptom_question_data = some qd →
      pyStrip s.text_query_input_area ≠ "" →
      ((handle_text_submission env s).state).follow_up_answers
        = s.follow_up_answers ++
            [⟨qd.symptom_name, qd.question, pyStrip s.text_query_input_area⟩]) ∧
    (voice_stt_step env s).follow_up_answers = s.follow_up_answers :=
  ⟨fun h1 h2 h3 h4 => (hts_facts env s).2.2.2.2.2 c qd h1 h2 h3 h4,
   (voice_state_facts env s).1⟩

/-- C1 witness: a typed answer is recorded against the pending question;
the voice block leaves the follow-up log unchanged. -/
theorem claim_C1_witness :
    c1wState.symptom_checker_active = true ∧
    ((handle_text_submission envTriv c1wState).state).follow_up_answers
      = c1wState.follow_up_answers ++
          [⟨"fever", "Q", pyStrip c1wState.text_query_input_area⟩] ∧
    (voice_stt_step envTriv c1wState).follow_up_answers = c1wState.follow_up_answers :=
  ⟨rfl,
   (claim_C1_amended envTriv c1wState ⟨[], []⟩ ⟨"Q", "fever"⟩).1 rfl rfl rfl (by decide),
   (claim_C1_amended envTriv c1wState ⟨[], []⟩ ⟨"Q", "fever"⟩).2⟩

/-- C1 counterexample: in the reachable state `c9s1` a follow-up question
is pending, yet a transcribed voice utterance records no follow-up answer
(it is consumed as a new query), while the same utterance typed would be
recorded — the voice pipeline does not apply the typed decision rule. -/
theorem claim_C1_counterexample :
    Reachable envTriv c9s1 ∧
    c9s1.symptom_checker_active = true ∧
    c9s1.pending_symptom_question_data ≠ none ∧
    ((step envTriv c9s1 (.audioCaptured [0])).state).follow_up_answers = [] ∧
    userCount ((step envTriv c9s1 (.audioCaptured [0])).state).conversation
      = userCount c9s1.conversation + 1 ∧
    ((step envTriv c9s1 (.textSubmit "what is flu")).state).follow_up_answers ≠ [] :=
  ⟨Reachable.next Reachable.init rfl, by decide, by decide, by decide, by decide, by decide⟩

/-- C2: in every reachable state, one non-empty typed submission appends
exactly one user message, and one successfully transcribed, non-empty voice
submission (with the detected language matching the session language)
appends exactly one user message; the downstream response processing never
adds another. -/
theorem claim_C2 (env : Env) (s : SessionState) (input : String) (bytes : List Nat)
    (cad : List Int) (sr : Nat) (tr det : String) (h : Reachable env s) :
    (pyStrip input ≠ "" →
      userCount ((step env s (.textSubmit input)).state).conversation
        = userCount s.conversation + 1) ∧
    (env.clean_audio bytes = Except.ok (cad, sr) →
      env.transcribe_audio cad sr s.current_language_code = Except.ok ⟨tr, det⟩ →
      det = s.current_language_code → pyStrip tr ≠ "" →
      userCount ((step env s (.audioCaptured bytes)).state).conversation
        = userCount s.conversation + 1) := by
  have hphc := (reachable_facts env s h).1
  constructor
  · intro hne
    exact (hts_facts env { s with text_query_input_area := input }).2.1
      (fun hp => hphc hp) hne
  · intro hclean htr hdet hne
    show userCount
      ((pipeline_step env { s with captured_audio_data := some bytes }).state).conversation
        = userCount s.conversation + 1
    unfold pipeline_step audio_clean_step
    dsimp only
    rw [hclean]
    dsimp only
    exact voice_userCount env
      { s with captured_audio_data := some bytes, cleaned_audio_data := some cad,
               captured_audio_sample_rate := sr,
               voice_input_stage := some "processing_stt" }
      cad tr det rfl rfl htr hdet hne

/-- C2 witness: a typed and a voice submission from the initial state each
append exactly one user message. -/
theorem claim_C2_witness :
    pyStrip "hi" ≠ "" ∧
    userCount ((step envTriv initState (.textSubmit "hi")).state).conversation
      = userCount initState.conversation + 1 ∧
    userCount ((step envTriv initState (.audioCaptured [0])).state).conversation
      = userCount initState.conversation + 1 :=
  ⟨by decide,
   (claim_C2 envTriv initState "hi" [0] [1] 16000 "what is flu" "en-IN"
     Reachable.init).1 (by decide),
   (claim_C2 envTriv initState "hi" [0] [1] 16000 "what is flu" "en-IN"
     Reachable.init).2 rfl rfl rfl (by decide)⟩

/-- C3 (amended): an exception on the new-query path is caught by
`process_and_display_response`, which appends exactly one system diagnostic
and clears the symptom-session transient fields and the voice stage; an
exception on the follow-up-answer path propagates out of
`handle_follow_up_answer` uncaught, with no system message appended and the
voice stage and active flag left exactly as they were. -/
theorem claim_C3_amended (env : Env) (s : SessionState) (uq lc ans e : String)
    (sErr : SessionState) :
    (env.SARVAM_API_KEY ≠ "" → processBody env s uq lc = .exn e sErr →
      process_and_display_response env s uq lc =
        { add_message_to_conversation sErr "system"
            "Sorry, an error occurred while processing your request. Please try rephrasing or try again later."
            none
          with symptom_checker_active := false, symptom_checker_instance := none,
               pending_symptom_question_data := none, voice_input_stage := none }) ∧
    (handle_follow_up_answer env s ans = .exn e sErr →
      sysCount sErr.conversation = sysCount s.conversation ∧
      sErr.voice_input_stage = s.voice_input_stage ∧
      sErr.symptom_checker_active = s.symptom_checker_active) := by
  constructor
  · intro hkey hbody
    unfold process_and_display_response
    rw [if_neg hkey, hbody]
  · intro hfa
    exact (hfa_facts env s ans).2 e sErr hfa

/-- C3 witness: an NLU failure on the new-query path is caught and
recovered; a translation failure in the follow-up loop escapes with the
system-message count, voice stage, and active flag untouched. -/
theorem claim_C3_witness :
    processBody envFail initState "hi" "en-IN" = .exn "nlu down" initState ∧
    process_and_display_response envFail initState "hi" "en-IN" =
      { add_message_to_conversation initState "system"
          "Sorry, an error occurred while processing your request. Please try rephrasing or try again later."
          none
        with symptom_checker_active := false, symptom_checker_instance := none,
             pending_symptom_question_data := none, voice_input_stage := none } ∧
    (sysCount c3exnState.conversation = sysCount sPend.conversation ∧
      c3exnState.voice_input_stage = sPend.voice_input_stage ∧
      c3exnState.symptom_checker_active = sPend.symptom_checker_active) :=
  ⟨by decide,
   (claim_C3_amended envFail initState "hi" "en-IN" "" "nlu down" initState).1
     (by decide) (by decide),
   (claim_C3_amended envC3 sPend "" "" "two days" "translation failed" c3exnState).2
     (by decide)⟩

/-- C3 counterexample: answering the pending follow-up question under an
environment whose translation call raises leaves the routing step with an
escaped exception (`Outcome.exn`), no system diagnostic in the
conversation, the pending question still set, and the session still
active — the follow-up path has no handler. -/
theorem claim_C3_counterexample :
    Reachable envC3 c3state ∧
    step envC3 c3s1 (.textSubmit "two days") = .exn "translation failed" c3state ∧
    sysCount c3state.conversation = 0 ∧
    c3state.pending_symptom_question_data ≠ none ∧
    c3state.symptom_checker_active = true :=
  ⟨Reachable.next (Reachable.next Reachable.init rfl) rfl,
   by decide, by decide, by decide, by decide⟩

/-- C4: with the checker enumerating finitely many questions, exactly
`c.questions.length + 1` answers (one per supplied question, starting from
the pending one) terminate the loop regardless of answer content, append
two messages per round, and end with the final appended message being the
single assistant assessment and the symptom session closed. -/
theorem claim_C4 (env : Env) (s : SessionState) (c : Checker) (qd : Question)
    (answers : List String)
    (hTr : ∀ t l, ∃ r, env.translate_text t l = Except.ok r)
    (hAs : ∀ c', ∃ a', env.generate_preliminary_assessment c' = Except.ok a')
    (hI : s.symptom_checker_instance = some c)
    (hP : s.pending_symptom_question_data = some qd)
    (hact : s.symptom_checker_active = true)
    (hlen : answers.length = c.questions.length + 1) :
    ∃ s' ms, run_follow_ups env s answers = .ok s' ∧
      s'.symptom_checker_active = false ∧
      s'.symptom_checker_instance = none ∧
      s'.pending_symptom_question_data = none ∧
      s'.conversation = s.conversation ++ ms ∧
      ms.length = 2 * answers.length ∧
      (∃ m, ms.getLast? = some m ∧ m.role = "assistant") := by
  obtain ⟨qs, col⟩ := c
  exact run_follow_ups_spec env hTr hAs qs col s qd answers hI hP hact hlen

/-- C4 witness: a two-question interview terminates after exactly two
answers with a final assistant assessment and an inactive session. -/
theorem claim_C4_witness :
    sPend.symptom_checker_active = true ∧
    (["two days", "mild"] : List String).length
      = [(⟨"How high?", "fever"⟩ : Question)].length + 1 ∧
    (∃ s' ms, run_follow_ups envTriv sPend ["two days", "mild"] = .ok s' ∧
      s'.symptom_checker_active = false ∧
      s'.symptom_checker_instance = none ∧
      s'.pending_symptom_question_data = none ∧
      s'.conversation = sPend.conversation ++ ms ∧
      ms.length = 2 * (["two days", "mild"] : List String).length ∧
      (∃ m, ms.getLast? = some m ∧ m.role = "assistant")) :=
  ⟨rfl, by decide,
   claim_C4 envTriv sPend ⟨[⟨"How high?", "fever"⟩], []⟩ ⟨"How long?", "fever"⟩
     ["two days", "mild"] (fun t l => ⟨t, rfl⟩) (fun c' => ⟨_, rfl⟩)
     rfl rfl rfl (by decide)⟩

/-- C5: an empty (or whitespace-only) transcription — assuming the
translation collaborators cannot turn whitespace into content — appends a
single system diagnostic, no user message, invokes no response processing,
and resets the voice stage and both audio buffers, leaving every other
session field untouched. -/
theorem claim_C5 (env : Env) (s : SessionState) (cad : List Int) (tr det : String)
    (h1 : s.voice_input_stage = some "processing_stt")
    (h2 : s.cleaned_audio_data = some cad)
    (h3 : env.transcribe_audio cad s.captured_audio_sample_rate s.current_language_code
      = Except.ok ⟨tr, det⟩)
    (h4 : pyStrip tr = "")
    (h5 : ∀ l r, env.translate_text tr l = Except.ok r → pyStrip r = "")
    (h6 : ∀ r, env.translate_text_to_english tr = Except.ok r → pyStrip r = "") :
    ∃ m, m.role = "system" ∧
      voice_stt_step env s =
        { s with conversation := s.conversation ++ [m],
                 captured_audio_data := none,
                 cleaned_audio_data := none,
                 voice_input_stage := none } := by
  unfold voice_stt_step
  rw [if_pos h1, h2]
  dsimp only
  rw [h3]
  dsimp only
  split
  · exact ⟨⟨"system", _, none⟩, rfl, rfl⟩
  · rename_i t heqT
    have ht : pyStrip t = "" := by
      split at heqT
      · split at heqT
        · exact h6 t heqT
        · exact h5 _ t heqT
      · injection heqT with heqT
        exact heqT ▸ h4
    rw [if_neg (fun hne => hne ht)]
    exact ⟨⟨"system", _, none⟩, rfl, rfl⟩

/-- C5 witness: an empty transcription yields one system diagnostic, a
reset voice stage and cleared buffers. -/
theorem claim_C5_witness :
    sStt.voice_input_stage = some "processing_stt" ∧
    pyStrip "" = "" ∧
    (∃ m, m.role = "system" ∧
      voice_stt_step envEmptySTT sStt =
        { sStt with conversation := sStt.conversation ++ [m],
                    captured_audio_data := none,
                    cleaned_audio_data := none,
                    voice_input_stage := none }) :=
  ⟨rfl, rfl,
   claim_C5 envEmptySTT sStt [1] "" "en-IN" rfl rfl rfl rfl
     (fun l r hr => by injection hr with h; rw [← h]; rfl)
     (fun r hr => by injection hr with h; rw [← h]; rfl)⟩

end HealBee
